import Mathlib

/-!
Shallow embedding of `src/airbndacquire.py`, a single Python module of seven
exploratory-data-analysis functions over pandas dataframes:

  timeseries_data, plot_timeseries_data, decompose_and_plot_timeseries,
  stationarity_and_acf_pacf_plots, plot_annual_reviews_and_growth,
  plot_general_monthly_reviews, plot_weekday_reviews.

Modelling choices:
* A dataframe is a list of column names plus a list of rows (each row a list
  of cells, positionally aligned with the column names).
* A cell is missing (`na`, modelling NaN/NaT), a string, an integer, a
  rational (for float-valued quantities such as growth rates and p-values),
  or a datetime value (year/month/day triple).
* Python exceptions are modelled with `Except Err`: a library call that
  raises is a primitive returning `.error e`, and the straight-line function
  bodies propagate errors through the `Except` monad, mirroring the absence
  of try/except in the source.
* matplotlib rendering is effect-only; each embedded function returns,
  alongside its value, the number of figures it shows (`plt.show()` calls
  executed), so "renders a chart" is observable.  Rendering itself is
  modelled as pure and non-failing.
* The statistical library routines whose mathematics lives outside this
  repository (`sm.tsa.STL(...).fit()`, `adfuller`, `DataFrame.describe`) are
  taken as parameters of the functions that call them, so the theorems
  quantify over every possible behaviour of those routines; everything the
  repository itself does (dropna, to_datetime, dt accessors, groupby/size,
  resample('M').sum, pct_change, set_index/reindex/reset_index) is modelled
  concretely.
-/

/-- A single dataframe cell: missing value (NaN/NaT), string, integer,
rational number (float-valued quantities), or datetime (year, month, day). -/
inductive Cell where
  | na : Cell
  | str (s : String) : Cell
  | int (n : Int) : Cell
  | rat (q : ℚ) : Cell
  | date (y m d : Nat) : Cell
  deriving DecidableEq, Repr

/-- A dataframe row: one cell per column, positionally aligned with the
dataframe's column-name list. -/
abbrev Row := List Cell

/-- A pandas dataframe: ordered column names and rows. -/
structure DataFrame where
  cols : List String
  rows : List Row
  deriving DecidableEq, Repr

/-- Errors raised by the underlying libraries (pandas/statsmodels).  The
repository itself constructs no errors; every `.error` in the embedding is
produced by one of the library primitives below. -/
inductive Err where
  | keyError (c : String) : Err
  | parseError (s : String) : Err
  | typeError : Err
  | attrError : Err
  | libError (msg : String) : Err
  deriving DecidableEq, Repr

/-- Index of a column name in a column list (pandas column lookup). -/
def colIdx (c : String) : List String → Option Nat
  | [] => none
  | x :: xs => if x = c then some 0 else (colIdx c xs).map (· + 1)

/-- `df[c]`: the column's cells, or a KeyError when the column is absent. -/
def DataFrame.getCol (df : DataFrame) (c : String) : Except Err (List Cell) :=
  match colIdx c df.cols with
  | none => .error (.keyError c)
  | some i => .ok (df.rows.map (fun r => r.getD i Cell.na))

/-- `df[c] = vals`: replace the column in place when present, otherwise
append it as a new last column.  `vals` always has one entry per row in the
source (it is computed from `df` itself). -/
def DataFrame.setCol (df : DataFrame) (c : String) (vals : List Cell) : DataFrame :=
  match colIdx c df.cols with
  | some i => ⟨df.cols, (df.rows.zip vals).map (fun p => p.1.set i p.2)⟩
  | none => ⟨df.cols ++ [c], (df.rows.zip vals).map (fun p => p.1 ++ [p.2])⟩

/-- `df.dropna(subset=[c])`: keep the rows whose `c` cell is not missing;
KeyError when the column is absent. -/
def dropnaSubset (df : DataFrame) (c : String) : Except Err DataFrame :=
  match colIdx c df.cols with
  | none => .error (.keyError c)
  | some i => .ok ⟨df.cols, df.rows.filter (fun r => r.getD i Cell.na != Cell.na)⟩

/-- Gregorian leap year. -/
def isLeap (y : Nat) : Bool :=
  (y % 4 == 0 && y % 100 != 0) || y % 400 == 0

/-- Days in a month of the Gregorian calendar. -/
def daysInMonth (y m : Nat) : Nat :=
  if m = 2 then (if isLeap y then 29 else 28)
  else if m = 4 ∨ m = 6 ∨ m = 9 ∨ m = 11 then 30
  else 31

/-- Split a character list at every dash. -/
def splitDashAux : List Char → List Char → List (List Char)
  | [], acc => [acc.reverse]
  | c :: cs, acc =>
    if c = '-' then acc.reverse :: splitDashAux cs []
    else splitDashAux cs (c :: acc)

/-- Numeric value of a list of decimal digit characters. -/
def digitsVal (cs : List Char) : Nat :=
  cs.foldl (fun n c => n * 10 + (c.toNat - 48)) 0

/-- Parse a string in the fixed format `%Y-%m-%d` (as in
`pd.to_datetime(..., format='%Y-%m-%d')`): four-digit year, one- or
two-digit month and day, separated by dashes, calendar-valid. -/
def parseDate (s : String) : Option (Nat × Nat × Nat) :=
  match splitDashAux s.data [] with
  | [ys, ms, ds] =>
    if ys.length = 4 ∧ ys.all Char.isDigit ∧
       1 ≤ ms.length ∧ ms.length ≤ 2 ∧ ms.all Char.isDigit ∧
       1 ≤ ds.length ∧ ds.length ≤ 2 ∧ ds.all Char.isDigit then
      let y := digitsVal ys
      let m := digitsVal ms
      let d := digitsVal ds
      if 1 ≤ m ∧ m ≤ 12 ∧ 1 ≤ d ∧ d ≤ daysInMonth y m then some (y, m, d)
      else none
    else none
  | _ => none

/-- `pd.to_datetime` on one cell with `format='%Y-%m-%d'`: missing values
stay missing (NaT), datetimes pass through, strings must parse in the fixed
format, and any other value raises. -/
def toDatetimeCell : Cell → Except Err Cell
  | Cell.na => .ok Cell.na
  | Cell.str s =>
      match parseDate s with
      | some (y, m, d) => .ok (Cell.date y m d)
      | none => .error (.parseError s)
  | Cell.date y m d => .ok (Cell.date y m d)
  | Cell.int n => .error (.parseError (toString n))
  | Cell.rat q => .error (.parseError (toString q))

/-- Error-propagating map over a list (first failure wins), the shape of a
pandas column-wise operation. -/
def mapE (f : Cell → Except Err Cell) : List Cell → Except Err (List Cell)
  | [] => .ok []
  | a :: as => do
    let b ← f a
    let bs ← mapE f as
    .ok (b :: bs)

/-- `pd.to_datetime(col, format='%Y-%m-%d')` over a whole column. -/
def to_datetime (col : List Cell) : Except Err (List Cell) :=
  mapE toDatetimeCell col

/-- `.dt.year` on one cell: NaT stays missing, otherwise the cell must be a
datetime.  A non-datetime column makes the `.dt` accessor raise. -/
def dtYearCell : Cell → Except Err Cell
  | Cell.na => .ok Cell.na
  | Cell.date y _ _ => .ok (Cell.int (Int.ofNat y))
  | _ => .error .typeError

/-- `.dt.month` on one cell. -/
def dtMonthCell : Cell → Except Err Cell
  | Cell.na => .ok Cell.na
  | Cell.date _ m _ => .ok (Cell.int (Int.ofNat m))
  | _ => .error .typeError

/-- `.dt.day` on one cell. -/
def dtDayCell : Cell → Except Err Cell
  | Cell.na => .ok Cell.na
  | Cell.date _ _ d => .ok (Cell.int (Int.ofNat d))
  | _ => .error .typeError

/-- `series.dt.year` over a column. -/
def dtYear (col : List Cell) : Except Err (List Cell) := mapE dtYearCell col

/-- `series.dt.month` over a column. -/
def dtMonth (col : List Cell) : Except Err (List Cell) := mapE dtMonthCell col

/-- `series.dt.day` over a column. -/
def dtDay (col : List Cell) : Except Err (List Cell) := mapE dtDayCell col

/-- A rank ordering the cell constructors, used to give groupby keys the
total order pandas sorting needs. -/
def Cell.rank : Cell → Nat
  | Cell.na => 0
  | Cell.int _ => 1
  | Cell.rat _ => 2
  | Cell.str _ => 3
  | Cell.date _ _ _ => 4

/-- Lexicographic comparison of character lists by code point. -/
def charListLe : List Char → List Char → Bool
  | [], _ => true
  | _ :: _, [] => false
  | a :: as, b :: bs => if a = b then charListLe as bs else decide (a < b)

/-- Lexicographic string comparison by code point (Python string order). -/
def strLe (x y : String) : Bool := charListLe x.data y.data

/-- Total comparison on cells: by constructor rank, then by the natural
order within each constructor (dates and strings lexicographically). -/
def cellLe (a b : Cell) : Bool :=
  match a, b with
  | Cell.int x, Cell.int y => x ≤ y
  | Cell.rat x, Cell.rat y => x ≤ y
  | Cell.str x, Cell.str y => strLe x y
  | Cell.date y1 m1 d1, Cell.date y2 m2 d2 =>
      y1 < y2 ∨ (y1 = y2 ∧ (m1 < m2 ∨ (m1 = m2 ∧ d1 ≤ d2)))
  | a, b => a.rank ≤ b.rank

/-- One step of insertion sort on cells. -/
def insertCell (a : Cell) : List Cell → List Cell
  | [] => [a]
  | b :: bs => if cellLe a b then a :: b :: bs else b :: insertCell a bs

/-- Insertion sort on cells (pandas `groupby(..., sort=True)` key order). -/
def sortCells : List Cell → List Cell
  | [] => []
  | a :: as => insertCell a (sortCells as)

/-- `df.groupby(c).size().reset_index(name=name)`: one row per distinct
non-missing key of column `c` (keys sorted, NaN groups dropped), holding the
key and the number of rows carrying it. -/
def groupbySize (df : DataFrame) (c : String) (name : String) :
    Except Err DataFrame := do
  let col ← df.getCol c
  let keys := sortCells ((col.filter (fun x => x != Cell.na)).dedup)
  .ok ⟨[c, name], keys.map (fun k => [k, Cell.int (Int.ofNat (col.count k))])⟩

/-- The embedding of `timeseries_data` (`src/airbndacquire.py` lines 8-33):
drop rows whose date is missing, convert the date column with
`pd.to_datetime(..., format='%Y-%m-%d')`, then assign `year`, `month` and
`day` columns from the converted dates.  The `print` of the date range is a
pure, non-failing side effect and is not modelled.  The second component is
the number of charts shown: this function shows none. -/
def timeseries_data (data : DataFrame) (date_column : String) :
    Except Err (DataFrame × Nat) := do
  let data_clean ← dropnaSubset data date_column
  let rawDates ← data_clean.getCol date_column
  let dates ← to_datetime rawDates
  let data1 := data_clean.setCol date_column dates
  let dcol1 ← data1.getCol date_column
  let years ← dtYear dcol1
  let data2 := data1.setCol "year" years
  let dcol2 ← data2.getCol date_column
  let months ← dtMonth dcol2
  let data3 := data2.setCol "month" months
  let dcol3 ← data3.getCol date_column
  let days ← dtDay dcol3
  let data4 := data3.setCol "day" days
  .ok (data4, 0)

/-- `series.min()` (NaN-skipping minimum under the total cell order);
the minimum of an empty series is NaN. -/
def seriesMin (col : List Cell) : Cell :=
  match col.filter (fun c => c != Cell.na) with
  | [] => Cell.na
  | a :: as => as.foldl (fun acc c => if cellLe c acc then c else acc) a

/-- `series.max()` (NaN-skipping maximum under the total cell order). -/
def seriesMax (col : List Cell) : Cell :=
  match col.filter (fun c => c != Cell.na) with
  | [] => Cell.na
  | a :: as => as.foldl (fun acc c => if cellLe acc c then c else acc) a

/-- `.year` on a scalar: only a Timestamp has the attribute; on NaN (empty
minimum) or any non-datetime scalar it raises AttributeError. -/
def yearOf : Cell → Except Err Nat
  | Cell.date y _ _ => .ok y
  | _ => .error .attrError

/-- `df.head()` (first five rows). -/
def DataFrame.head5 (df : DataFrame) : DataFrame :=
  ⟨df.cols, df.rows.take 5⟩

/-- The embedding of `plot_timeseries_data` (lines 37-65): group by the date
column counting rows per date, plot the series (the title evaluates
`.min().year` and `.max().year` on the grouped date column, which raises
AttributeError when the grouped frame is empty or its keys are not
datetimes), and return the grouped frame together with
`(describe, head)`.  `describe` is the pandas statistics routine, taken as a
parameter; one chart is shown. -/
def plot_timeseries_data (describe : DataFrame → DataFrame) (data : DataFrame)
    (date_column : String) (value_column : String) :
    Except Err ((DataFrame × (DataFrame × DataFrame)) × Nat) := do
  let time_series_data ← groupbySize data date_column value_column
  let dates ← time_series_data.getCol date_column
  let _ ← time_series_data.getCol value_column
  let _ ← yearOf (seriesMin dates)
  let _ ← yearOf (seriesMax dates)
  .ok ((time_series_data, (describe time_series_data, time_series_data.head5)), 1)

/-- The result of `sm.tsa.STL(...).fit()`: trend, seasonal and residual
components.  The STL mathematics lives in statsmodels, outside this
repository, so functions take the fitted decomposition as a parameter. -/
structure STLOut where
  trend : List ℚ
  seasonal : List ℚ
  resid : List ℚ
  deriving DecidableEq, Repr

/-- Numeric value of a cell for pandas summation; missing values are
skipped (sum 0).  Non-numeric cells do not occur in a summed value column. -/
def cellQ : Cell → ℚ
  | Cell.int n => (n : ℚ)
  | Cell.rat q => q
  | _ => 0

/-- The month bucket of a datetime cell, as a linear month index. -/
def monthKey : Cell → Option Nat
  | Cell.date y m _ => some (y * 12 + (m - 1))
  | _ => none

/-- `data.resample('M', on=date_column).sum()[value_column]` (line 85 plus
the column selection on line 88): bucket the rows by calendar month of the
date column and sum the value column per bucket, over the contiguous month
range from the earliest to the latest date (months with no rows sum to 0,
as pandas resampling fills gaps); rows with a missing date are dropped.
Resampling on a non-datetime column raises, and a missing column raises
KeyError. -/
def resampleMonthlySum (df : DataFrame) (date_column value_column : String) :
    Except Err (List (Nat × ℚ)) := do
  let dcol ← df.getCol date_column
  if dcol.any (fun c => c != Cell.na && (monthKey c).isNone) then
    .error .typeError
  else if value_column = date_column then
    .error (.keyError value_column)
  else do
    let vcol ← df.getCol value_column
    let pairs := (dcol.zip vcol).filterMap
      (fun p => (monthKey p.1).map (fun k => (k, cellQ p.2)))
    match pairs.map Prod.fst with
    | [] => .ok []
    | k :: ks =>
      let lo := ks.foldl Nat.min k
      let hi := ks.foldl Nat.max k
      .ok ((List.range (hi + 1 - lo)).map (fun j =>
        (lo + j, ((pairs.filter (fun p => p.1 == lo + j)).map Prod.snd).sum)))

/-- The embedding of `decompose_and_plot_timeseries` (lines 71-117):
resample to monthly frequency, fit the STL decomposition with the given
seasonal period, plot the four panels, and return the decomposition
unmodified.  `stl` is `sm.tsa.STL(series, seasonal=p).fit()`, taken as a
parameter; one chart is shown. -/
def decompose_and_plot_timeseries
    (stl : List (Nat × ℚ) → Nat → Except Err STLOut) (data : DataFrame)
    (date_column value_column : String) (seasonal_period : Nat) :
    Except Err (STLOut × Nat) := do
  let monthly_reviews ← resampleMonthlySum data date_column value_column
  let decomposition ← stl monthly_reviews seasonal_period
  .ok (decomposition, 1)

/-- The tuple returned by `statsmodels.tsa.stattools.adfuller`: the source
uses entries 0-3 (test statistic, p-value, lags used, observations used);
the remaining entries (critical values, information criterion) are carried
opaquely. -/
structure AdfResult where
  stat : ℚ
  pvalue : ℚ
  usedlag : Int
  nobs : Int
  rest : List ℚ
  deriving DecidableEq, Repr

/-- A pandas Series with string index labels. -/
abbrev Series := List (String × Cell)

/-- The embedding of `stationarity_and_acf_pacf_plots` (lines 120-146): run
the ADF test on the value column, package entries 0-3 of its result as a
labelled series, draw the ACF/PACF figure, and return the summary together
with `p-value <= 0.05`.  `adfuller` is the statsmodels test, taken as a
parameter; one chart is shown. -/
def stationarity_and_acf_pacf_plots
    (adfuller : List Cell → Except Err AdfResult) (data : DataFrame)
    (value_column : String) : Except Err ((Series × Bool) × Nat) := do
  let vcol ← data.getCol value_column
  let adf_result ← adfuller vcol
  let adf_summary : Series :=
    [("Test Statistic", Cell.rat adf_result.stat),
     ("p-value", Cell.rat adf_result.pvalue),
     ("#Lags Used", Cell.int adf_result.usedlag),
     ("Number of Observations Used", Cell.int adf_result.nobs)]
  .ok ((adf_summary, decide (adf_result.pvalue ≤ 5 / 100)), 1)

/-- Numeric value of a cell, or `none` for a non-numeric cell. -/
def toQ : Cell → Option ℚ
  | Cell.int n => some ((n : ℚ))
  | Cell.rat q => some q
  | _ => none

/-- Tail of `pct_change() * 100`: each entry compares a cell with its
predecessor; a non-numeric neighbour (or a zero predecessor, where pandas
produces a non-finite float) yields a missing entry. -/
def pctChange100Aux : Cell → List Cell → List Cell
  | _, [] => []
  | prev, c :: cs =>
    (match toQ prev, toQ c with
     | some p, some x => if p = 0 then Cell.na else Cell.rat ((x - p) / p * 100)
     | _, _ => Cell.na) :: pctChange100Aux c cs

/-- `series.pct_change() * 100`: the first entry is missing, each later
entry is the percentage change from its predecessor. -/
def pctChange100 : List Cell → List Cell
  | [] => []
  | c :: cs => Cell.na :: pctChange100Aux c cs

/-- The embedding of `plot_annual_reviews_and_growth` (lines 151-196):
assign `data['year']` from the date column (mutating the caller's frame,
returned here as the first component), group by year counting rows, append
the percentage growth rate, plot, and return the annual frame.  One chart
is shown. -/
def plot_annual_reviews_and_growth (data : DataFrame)
    (date_column value_column_name : String) :
    Except Err ((DataFrame × DataFrame) × Nat) := do
  let dcol ← data.getCol date_column
  let years ← dtYear dcol
  let data' := data.setCol "year" years
  let annual ← groupbySize data' "year" value_column_name
  let counts ← annual.getCol value_column_name
  let annual_reviews := annual.setCol "growth_rate" (pctChange100 counts)
  .ok ((data', annual_reviews), 1)

/-- The embedding of `plot_general_monthly_reviews` (lines 201-231): assign
`data['month']` from the date column (mutating the caller's frame, returned
here as the first component), group by month counting rows, plot, and
return the monthly frame.  One chart is shown. -/
def plot_general_monthly_reviews (data : DataFrame)
    (date_column value_column_name : String) :
    Except Err ((DataFrame × DataFrame) × Nat) := do
  let dcol ← data.getCol date_column
  let months ← dtMonth dcol
  let data' := data.setCol "month" months
  let monthly_reviews_general ← groupbySize data' "month" value_column_name
  .ok ((data', monthly_reviews_general), 1)

/-- Day of the week of a Gregorian date, 0 = Monday … 6 = Sunday
(Zeller's congruence). -/
def dayOfWeek (y m d : Nat) : Nat :=
  let m2 := if m < 3 then m + 12 else m
  let y2 := if m < 3 then y - 1 else y
  let k := y2 % 100
  let j := y2 / 100
  let h := (d + (13 * (m2 + 1)) / 5 + k + k / 4 + j / 4 + 5 * j) % 7
  (h + 5) % 7

/-- The weekday order fixed on line 253 of the source. -/
def weekdayOrder : List String :=
  ["Monday", "Tuesday", "Wednesday", "Thursday", "Friday", "Saturday", "Sunday"]

/-- `.dt.day_name()` on one cell. -/
def dtDayNameCell : Cell → Except Err Cell
  | Cell.na => .ok Cell.na
  | Cell.date y m d => .ok (Cell.str (weekdayOrder.getD (dayOfWeek y m d) ""))
  | _ => .error .typeError

/-- `wr.set_index('weekday').reindex(weekday_order).reset_index()`
(line 254): one row per weekday in the fixed order; a weekday absent from
`wr` gets a missing (NaN) value, as pandas reindexing inserts NaN for
missing labels. -/
def setIndexReindexWeekdays (wr : DataFrame) (value_column_name : String) :
    DataFrame :=
  ⟨["weekday", value_column_name],
   weekdayOrder.map (fun w =>
     [Cell.str w,
      ((wr.rows.find? (fun r => r.getD 0 Cell.na == Cell.str w)).map
        (fun r => r.getD 1 Cell.na)).getD Cell.na])⟩

/-- The embedding of `plot_weekday_reviews` (lines 236-268): assign
`data['weekday']` from the date column's day names (mutating the caller's
frame, returned here as the first component), group by weekday counting
rows, reindex to the fixed Monday-Sunday order, plot, and return the
weekday frame.  One chart is shown. -/
def plot_weekday_reviews (data : DataFrame)
    (date_column value_column_name : String) :
    Except Err ((DataFrame × DataFrame) × Nat) := do
  let dcol ← data.getCol date_column
  let names ← mapE dtDayNameCell dcol
  let data' := data.setCol "weekday" names
  let wr ← groupbySize data' "weekday" value_column_name
  let weekday_reviews := setIndexReindexWeekdays wr value_column_name
  .ok ((data', weekday_reviews), 1)

/-- A dataframe is rectangular: every row has one cell per column. -/
def DataFrame.wf (df : DataFrame) : Prop :=
  ∀ r ∈ df.rows, r.length = df.cols.length

instance (df : DataFrame) : Decidable df.wf := by
  unfold DataFrame.wf; infer_instance

@[simp] theorem bindE_ok (a : α) (f : α → Except Err β) :
    ((Except.ok a : Except Err α) >>= f) = f a := rfl

@[simp] theorem bindE_error (e : Err) (f : α → Except Err β) :
    ((Except.error e : Except Err α) >>= f) = .error e := rfl

theorem colIdx_none_iff (c : String) (l : List String) :
    colIdx c l = none ↔ c ∉ l := by
  induction l with
  | nil => simp [colIdx]
  | cons x xs ih =>
    by_cases hx : x = c
    · subst hx; simp [colIdx]
    · simp only [colIdx, if_neg hx, List.mem_cons, Option.map_eq_none']
      constructor
      · intro h hc
        rcases hc with hc | hc
        · exact hx hc.symm
        · exact (ih.mp h) hc
      · intro h
        exact ih.mpr (fun hc => h (Or.inr hc))

theorem colIdx_lt_length {c : String} {l : List String} {i : Nat}
    (h : colIdx c l = some i) : i < l.length := by
  induction l generalizing i with
  | nil => simp [colIdx] at h
  | cons x xs ih =>
    by_cases hx : x = c
    · simp [colIdx, hx] at h
      simp only [List.length_cons]
      omega
    · simp only [colIdx, if_neg hx] at h
      cases h' : colIdx c xs with
      | none => rw [h'] at h; simp at h
      | some j =>
        rw [h'] at h; simp at h
        have := ih h'
        simp only [List.length_cons]
        omega

theorem colIdx_append_left {c : String} {l : List String} {i : Nat}
    (h : colIdx c l = some i) (l' : List String) :
    colIdx c (l ++ l') = some i := by
  induction l generalizing i with
  | nil => simp [colIdx] at h
  | cons x xs ih =>
    by_cases hx : x = c
    · simp [colIdx, hx] at h ⊢; exact h
    · simp only [colIdx, if_neg hx, List.cons_append] at h ⊢
      cases h' : colIdx c xs with
      | none => rw [h'] at h; simp at h
      | some j =>
        rw [h'] at h; simp at h
        simp only [List.append_eq]
        rw [ih h']
        simp [h]

theorem colIdx_append_of_not_mem {c : String} {l : List String}
    (h : c ∉ l) (l' : List String) :
    colIdx c (l ++ l') = (colIdx c l').map (· + l.length) := by
  induction l with
  | nil => simp
  | cons x xs ih =>
    have hx : x ≠ c := fun he => h (he ▸ List.mem_cons_self x xs)
    have hxs : c ∉ xs := fun he => h (List.mem_cons_of_mem _ he)
    simp only [List.cons_append, colIdx, if_neg hx, List.append_eq]
    rw [ih hxs]
    cases hcl : colIdx c l' with
    | none => simp
    | some j => simp only [Option.map_some, List.length_cons]; simp; omega

theorem colIdx_mem {c : String} {l : List String} (h : c ∈ l) :
    ∃ i, colIdx c l = some i := by
  cases hc : colIdx c l with
  | none => exact absurd ((colIdx_none_iff c l).mp hc) (not_not_intro h)
  | some i => exact ⟨i, rfl⟩

theorem mapE_ok_forall2 {f : Cell → Except Err Cell} :
    ∀ {l l' : List Cell}, mapE f l = .ok l' →
      List.Forall₂ (fun a b => f a = .ok b) l l' := by
  intro l
  induction l with
  | nil =>
    intro l' h
    simp [mapE] at h
    subst h
    exact List.Forall₂.nil
  | cons a as ih =>
    intro l' h
    simp only [mapE] at h
    cases hf : f a with
    | error e => rw [hf] at h; simp at h
    | ok b =>
      rw [hf] at h
      simp only [bindE_ok] at h
      cases hm : mapE f as with
      | error e => rw [hm] at h; simp at h
      | ok bs =>
        rw [hm] at h
        simp only [bindE_ok] at h
        cases h
        exact List.Forall₂.cons hf (ih hm)

theorem mapE_ok_length {f : Cell → Except Err Cell} {l l' : List Cell}
    (h : mapE f l = .ok l') : l'.length = l.length :=
  ((mapE_ok_forall2 h).length_eq).symm

theorem mapE_ok_of_mem {f : Cell → Except Err Cell} {a : Cell} :
    ∀ {l l' : List Cell}, mapE f l = .ok l' → a ∈ l →
      ∃ b, f a = .ok b := by
  intro l
  induction l with
  | nil => intro l' _ ha; simp at ha
  | cons x xs ih =>
    intro l' h ha
    simp only [mapE] at h
    cases hf : f x with
    | error e => rw [hf] at h; simp at h
    | ok b =>
      rw [hf] at h
      simp only [bindE_ok] at h
      cases hm : mapE f xs with
      | error e => rw [hm] at h; simp at h
      | ok bs =>
        rcases List.mem_cons.mp ha with rfl | ha'
        · exact ⟨b, hf⟩
        · exact ih hm ha' 

theorem mapE_error_of_mem {f : Cell → Except Err Cell} {l : List Cell}
    {a : Cell} (ha : a ∈ l) (hf : ∀ b, f a ≠ .ok b) :
    ∃ e, mapE f l = .error e := by
  induction l with
  | nil => simp at ha
  | cons x xs ih =>
    rcases List.mem_cons.mp ha with rfl | ha'
    · cases he : f a with
      | error e => exact ⟨e, by simp [mapE, he]⟩
      | ok b => exact absurd he (hf b)
    · cases he : f x with
      | error e => exact ⟨e, by simp [mapE, he]⟩
      | ok b =>
        obtain ⟨e, hme⟩ := ih ha'
        exact ⟨e, by simp [mapE, he, hme]⟩

theorem insertCell_perm (a : Cell) (l : List Cell) :
    (insertCell a l).Perm (a :: l) := by
  induction l with
  | nil => simp [insertCell]
  | cons b bs ih =>
    simp only [insertCell]
    by_cases h : cellLe a b
    · simp [h]
    · simp only [if_neg h]
      exact (List.Perm.cons b ih).trans (List.Perm.swap a b bs)

theorem sortCells_perm (l : List Cell) : (sortCells l).Perm l := by
  induction l with
  | nil => simp [sortCells]
  | cons a as ih =>
    exact (insertCell_perm a (sortCells as)).trans (List.Perm.cons a ih)

theorem sortCells_nodup {l : List Cell} (h : l.Nodup) :
    (sortCells l).Nodup := ((sortCells_perm l).nodup_iff).mpr h

theorem sortCells_mem {a : Cell} {l : List Cell} :
    a ∈ sortCells l ↔ a ∈ l := (sortCells_perm l).mem_iff

theorem mapE_ok_mem_right {f : Cell → Except Err Cell} {b : Cell} :
    ∀ {l l' : List Cell}, mapE f l = .ok l' → b ∈ l' →
      ∃ a ∈ l, f a = .ok b := by
  intro l
  induction l with
  | nil =>
    intro l' h hb
    simp [mapE] at h
    subst h
    simp at hb
  | cons x xs ih =>
    intro l' h hb
    simp only [mapE] at h
    cases hf : f x with
    | error e => rw [hf] at h; simp at h
    | ok v =>
      rw [hf] at h
      simp only [bindE_ok] at h
      cases hm : mapE f xs with
      | error e => rw [hm] at h; simp at h
      | ok vs =>
        rw [hm] at h
        simp only [bindE_ok] at h
        cases h
        rcases List.mem_cons.mp hb with rfl | hb'
        · exact ⟨x, List.mem_cons_self x xs, hf⟩
        · obtain ⟨a, ha, hfa⟩ := ih hm hb'
          exact ⟨a, List.mem_cons_of_mem _ ha, hfa⟩

theorem mapE_eq_map {f : Cell → Except Err Cell} {g : Cell → Cell} :
    ∀ {l : List Cell}, (∀ a ∈ l, f a = .ok (g a)) →
      mapE f l = .ok (l.map g) := by
  intro l
  induction l with
  | nil => intro _; simp [mapE]
  | cons x xs ih =>
    intro h
    have hx := h x (List.mem_cons_self x xs)
    have hxs := ih (fun a ha => h a (List.mem_cons_of_mem _ ha))
    simp [mapE, hx, hxs]

theorem set_getD_self {l : List Cell} {i : Nat} {d : Cell}
    (h : i < l.length) : l.set i (l.getD i d) = l := by
  induction l generalizing i with
  | nil => simp at h
  | cons a as ih =>
    cases i with
    | zero => simp
    | succ j =>
      simp only [List.length_cons] at h
      simp only [List.getD_cons_succ, List.set_cons_succ]
      rw [ih (by omega)]

theorem getD_append_lt {l l' : List Cell} {i : Nat} {d : Cell}
    (h : i < l.length) : (l ++ l').getD i d = l.getD i d := by
  induction l generalizing i with
  | nil => simp at h
  | cons a as ih =>
    cases i with
    | zero => simp
    | succ j =>
      simp only [List.length_cons] at h
      simp only [List.cons_append, List.getD_cons_succ]
      exact ih (by omega)

theorem zip_set_map_getD {i : Nat} :
    ∀ (rs : List Row) (vs : List Cell), rs.length = vs.length →
      (∀ r ∈ rs, i < r.length) →
      ((rs.zip vs).map (fun p => p.1.set i p.2)).map
        (fun r => r.getD i Cell.na) = vs := by
  intro rs
  induction rs with
  | nil =>
    intro vs h _
    cases vs
    · simp
    · simp at h
  | cons r rs ih =>
    intro vs h hb
    cases vs with
    | nil => simp at h
    | cons v vs' =>
      simp only [List.zip_cons_cons, List.map_cons]
      have hr : i < r.length := hb r (List.mem_cons_self r rs)
      rw [List.getD_eq_getElem _ _ (by simp [List.length_set]; omega)]
      simp only [List.getElem_set_self]
      rw [ih vs' (by simpa using h) (fun r' hr' => hb r' (List.mem_cons_of_mem _ hr'))]

theorem zip_append_map_getD {i : Nat} :
    ∀ (rs : List Row) (vs : List Cell), rs.length = vs.length →
      (∀ r ∈ rs, i < r.length) →
      ((rs.zip vs).map (fun p => p.1 ++ [p.2])).map
        (fun r => r.getD i Cell.na) = rs.map (fun r => r.getD i Cell.na) := by
  intro rs
  induction rs with
  | nil => intro vs _ _; simp
  | cons r rs ih =>
    intro vs h hb
    cases vs with
    | nil => simp at h
    | cons v vs' =>
      simp only [List.zip_cons_cons, List.map_cons]
      have hr : i < r.length := hb r (List.mem_cons_self r rs)
      rw [getD_append_lt hr,
        ih vs' (by simpa using h) (fun r' hr' => hb r' (List.mem_cons_of_mem _ hr'))]

/-- Year projection of a datetime cell (the value `.dt.year` yields). -/
def yearC : Cell → Cell
  | Cell.date y _ _ => Cell.int (Int.ofNat y)
  | _ => Cell.na

/-- Month projection of a datetime cell. -/
def monthC : Cell → Cell
  | Cell.date _ m _ => Cell.int (Int.ofNat m)
  | _ => Cell.na

/-- Day projection of a datetime cell. -/
def dayC : Cell → Cell
  | Cell.date _ _ d => Cell.int (Int.ofNat d)
  | _ => Cell.na

/-- A cell produced by a successful `to_datetime` of a non-missing cell is a
datetime. -/
theorem toDatetimeCell_ok_date {c v : Cell} (hc : c ≠ Cell.na)
    (h : toDatetimeCell c = .ok v) : ∃ y m d, v = Cell.date y m d := by
  cases c with
  | na => exact absurd rfl hc
  | str s =>
    simp only [toDatetimeCell] at h
    cases hp : parseDate s with
    | none => rw [hp] at h; simp at h
    | some t =>
      obtain ⟨y, m, d⟩ := t
      rw [hp] at h
      simp at h
      exact ⟨y, m, d, h.symm⟩
  | int n => simp [toDatetimeCell] at h
  | rat q => simp [toDatetimeCell] at h
  | date y m d => simp [toDatetimeCell] at h; exact ⟨y, m, d, h.symm⟩

theorem assemble_rows {i : Nat} :
    ∀ (rs : List Row) (vs : List Cell), rs.length = vs.length →
      (((((((rs.zip vs).map (fun p => p.1.set i p.2)).zip
          (vs.map yearC)).map (fun p => p.1 ++ [p.2])).zip
          (vs.map monthC)).map (fun p => p.1 ++ [p.2])).zip
          (vs.map dayC)).map (fun p => p.1 ++ [p.2]) =
      (rs.zip vs).map
        (fun p => p.1.set i p.2 ++ [yearC p.2, monthC p.2, dayC p.2]) := by
  intro rs
  induction rs with
  | nil => intro vs _; simp
  | cons r rs ih =>
    intro vs h
    cases vs with
    | nil => simp at h
    | cons v vs' =>
      simp only [List.map_cons, List.zip_cons_cons]
      rw [ih vs' (by simpa using h)]
      simp

/-- The rows of `df` surviving `dropna(subset=[date_column])`, where `i` is
the date column's position. -/
def keptRows (df : DataFrame) (i : Nat) : List Row :=
  df.rows.filter (fun r => r.getD i Cell.na != Cell.na)

theorem keptRows_getD_ne_na {df : DataFrame} {i : Nat} {r : Row}
    (hr : r ∈ keptRows df i) : r.getD i Cell.na ≠ Cell.na := by
  have := List.of_mem_filter hr
  simpa using this

/-- Closed form of `timeseries_data` on a rectangular frame whose columns do
not already include `year`, `month` or `day`: the returned frame keeps
exactly the rows with a non-missing date, replaces the date cell by its
parsed datetime, and appends the three extracted components; no chart is
shown. -/
theorem timeseries_data_closed (df : DataFrame) (dc : String) (i : Nat)
    (hi : colIdx dc df.cols = some i) (hwf : df.wf)
    (hy : "year" ∉ df.cols) (hmo : "month" ∉ df.cols) (hd : "day" ∉ df.cols)
    (dates : List Cell)
    (hdates : to_datetime ((keptRows df i).map (fun r => r.getD i Cell.na)) =
      .ok dates) :
    timeseries_data df dc = .ok
      (⟨df.cols ++ ["year", "month", "day"],
        ((keptRows df i).zip dates).map
          (fun p => p.1.set i p.2 ++ [yearC p.2, monthC p.2, dayC p.2])⟩, 0) := by
  have hilt : i < df.cols.length := colIdx_lt_length hi
  have hkb : ∀ r ∈ keptRows df i, i < r.length := by
    intro r hr
    rw [hwf r (List.mem_of_mem_filter hr)]
    exact hilt
  have hlen : dates.length = (keptRows df i).length := by
    have := mapE_ok_length hdates
    simpa using this
  have hdate_all : ∀ b ∈ dates, ∃ y mo da, b = Cell.date y mo da := by
    intro b hb
    obtain ⟨a, ha, hfa⟩ := mapE_ok_mem_right hdates hb
    obtain ⟨r, hr, rfl⟩ := List.mem_map.mp ha
    exact toDatetimeCell_ok_date (keptRows_getD_ne_na hr) hfa
  have hyears : dtYear dates = .ok (dates.map yearC) := by
    apply mapE_eq_map
    intro a ha
    obtain ⟨y, mo, da, rfl⟩ := hdate_all a ha
    rfl
  have hmonths : dtMonth dates = .ok (dates.map monthC) := by
    apply mapE_eq_map
    intro a ha
    obtain ⟨y, mo, da, rfl⟩ := hdate_all a ha
    rfl
  have hdays : dtDay dates = .ok (dates.map dayC) := by
    apply mapE_eq_map
    intro a ha
    obtain ⟨y, mo, da, rfl⟩ := hdate_all a ha
    rfl
  have hcy : colIdx "year" df.cols = none := (colIdx_none_iff _ _).mpr hy
  have hcm : colIdx "month" (df.cols ++ ["year"]) = none := by
    rw [colIdx_append_of_not_mem hmo]
    have h0 : colIdx "month" ["year"] = none := by decide
    rw [h0]; rfl
  have hcd : colIdx "day" (df.cols ++ ["year"] ++ ["month"]) = none := by
    rw [List.append_assoc, colIdx_append_of_not_mem hd]
    have h0 : colIdx "day" (["year"] ++ ["month"]) = none := by decide
    rw [h0]; rfl
  have hdc2 : colIdx dc (df.cols ++ ["year"]) = some i := colIdx_append_left hi _
  have hdc3 : colIdx dc (df.cols ++ ["year"] ++ ["month"]) = some i :=
    colIdx_append_left hdc2 _
  -- intermediate row lists
  have g1 : ((((keptRows df i).zip dates).map (fun p => p.1.set i p.2)).map
      (fun r => r.getD i Cell.na)) = dates :=
    zip_set_map_getD (keptRows df i) dates hlen.symm hkb
  have hlen1 : (((keptRows df i).zip dates).map
      (fun p => p.1.set i p.2)).length = (keptRows df i).length := by
    simp [List.length_zip, hlen]
  have hb1 : ∀ r ∈ ((keptRows df i).zip dates).map (fun p => p.1.set i p.2),
      i < r.length := by
    intro r hr
    obtain ⟨p, hp, rfl⟩ := List.mem_map.mp hr
    rw [List.length_set]
    exact hkb p.1 (List.of_mem_zip hp).1
  have g2 : (((((keptRows df i).zip dates).map (fun p => p.1.set i p.2)).zip
      (dates.map yearC)).map (fun p => p.1 ++ [p.2])).map
      (fun r => r.getD i Cell.na) = dates := by
    rw [zip_append_map_getD _ _ (by simp [hlen1, hlen]) hb1]
    exact g1
  have hlen2 : ((((( keptRows df i).zip dates).map (fun p => p.1.set i p.2)).zip
      (dates.map yearC)).map (fun p => p.1 ++ [p.2])).length =
      (keptRows df i).length := by
    simp [List.length_zip, hlen1, hlen]
  have hb2 : ∀ r ∈ ((((keptRows df i).zip dates).map
      (fun p => p.1.set i p.2)).zip (dates.map yearC)).map
      (fun p => p.1 ++ [p.2]), i < r.length := by
    intro r hr
    obtain ⟨p, hp, rfl⟩ := List.mem_map.mp hr
    have := hb1 p.1 (List.of_mem_zip hp).1
    rw [List.length_append]
    omega
  have g3 : (((((((keptRows df i).zip dates).map (fun p => p.1.set i p.2)).zip
      (dates.map yearC)).map (fun p => p.1 ++ [p.2])).zip
      (dates.map monthC)).map (fun p => p.1 ++ [p.2])).map
      (fun r => r.getD i Cell.na) = dates := by
    rw [zip_append_map_getD _ _ (by simp [hlen2, hlen]) hb2]
    exact g2
  -- unfold the pipeline
  have e1 : dropnaSubset df dc = .ok ⟨df.cols, keptRows df i⟩ := by
    simp [dropnaSubset, hi, keptRows]
  have e2 : DataFrame.getCol ⟨df.cols, keptRows df i⟩ dc =
      .ok ((keptRows df i).map (fun r => r.getD i Cell.na)) := by
    simp [DataFrame.getCol, hi]
  simp only [timeseries_data, e1, bindE_ok, e2, hdates]
  simp only [DataFrame.setCol, DataFrame.getCol, hi, hcy, hcm, hcd, hdc2, hdc3,
    bindE_ok, g1, g2, g3, hyears, hmonths, hdays]
  rw [assemble_rows (keptRows df i) dates hlen.symm]
  simp [List.append_assoc]

/-- Inverting a successful run of `timeseries_data`: the dropna, column
read and datetime conversion all succeeded. -/
theorem timeseries_data_ok_inv {df : DataFrame} {dc : String}
    {out : DataFrame} {n : Nat}
    (h : timeseries_data df dc = .ok (out, n)) :
    ∃ i dates, colIdx dc df.cols = some i ∧
      to_datetime ((keptRows df i).map (fun r => r.getD i Cell.na)) =
        .ok dates := by
  simp only [timeseries_data] at h
  cases hc : colIdx dc df.cols with
  | none =>
    rw [show dropnaSubset df dc = .error (.keyError dc) by
      simp [dropnaSubset, hc]] at h
    simp at h
  | some i =>
    rw [show dropnaSubset df dc = .ok ⟨df.cols, keptRows df i⟩ by
      simp [dropnaSubset, hc, keptRows]] at h
    simp only [bindE_ok] at h
    rw [show DataFrame.getCol ⟨df.cols, keptRows df i⟩ dc =
        .ok ((keptRows df i).map (fun r => r.getD i Cell.na)) by
      simp [DataFrame.getCol, hc]] at h
    simp only [bindE_ok] at h
    cases hdt : to_datetime ((keptRows df i).map (fun r => r.getD i Cell.na)) with
    | error e => rw [hdt] at h; simp at h
    | ok dates => exact ⟨i, dates, rfl, hdt⟩

/-- A missing date column propagates pandas' KeyError out of
`timeseries_data` unmodified. -/
theorem timeseries_data_keyError {df : DataFrame} {dc : String}
    (h : dc ∉ df.cols) :
    timeseries_data df dc = .error (.keyError dc) := by
  have hc : colIdx dc df.cols = none := (colIdx_none_iff _ _).mpr h
  simp only [timeseries_data]
  rw [show dropnaSubset df dc = .error (.keyError dc) by simp [dropnaSubset, hc]]
  simp

/-- A failing `to_datetime` propagates its error out of `timeseries_data`
unmodified. -/
theorem timeseries_data_parse_propagates {df : DataFrame} {dc : String}
    {i : Nat} {e : Err} (hi : colIdx dc df.cols = some i)
    (hdt : to_datetime ((keptRows df i).map (fun r => r.getD i Cell.na)) =
      .error e) :
    timeseries_data df dc = .error e := by
  simp only [timeseries_data]
  rw [show dropnaSubset df dc = .ok ⟨df.cols, keptRows df i⟩ by
    simp [dropnaSubset, hi, keptRows]]
  simp only [bindE_ok]
  rw [show DataFrame.getCol ⟨df.cols, keptRows df i⟩ dc =
      .ok ((keptRows df i).map (fun r => r.getD i Cell.na)) by
    simp [DataFrame.getCol, hi]]
  simp only [bindE_ok]
  rw [hdt]
  simp

deriving instance DecidableEq for Except

/-- C5 (amended): on a rectangular frame that does not already have
`year`, `month` or `day` columns, a successful `timeseries_data` returns
exactly the rows whose date cell is not missing, with the date cell replaced
by its parsed datetime, three new columns `year`, `month`, `day` appended
holding that date's components, and every other cell of the retained rows
unchanged. -/
theorem claim_C5 (df : DataFrame) (dc : String) (i : Nat)
    (hi : colIdx dc df.cols = some i) (hwf : df.wf)
    (hy : "year" ∉ df.cols) (hmo : "month" ∉ df.cols) (hd : "day" ∉ df.cols)
    (out : DataFrame) (n : Nat)
    (h : timeseries_data df dc = .ok (out, n)) :
    out.cols = df.cols ++ ["year", "month", "day"] ∧
    out.rows.length = (keptRows df i).length ∧
    ∀ j, j < (keptRows df i).length → ∃ y mo da,
      toDatetimeCell (((keptRows df i).getD j []).getD i Cell.na) =
        .ok (Cell.date y mo da) ∧
      out.rows.getD j [] =
        (((keptRows df i).getD j []).set i (Cell.date y mo da)) ++
          [Cell.int (Int.ofNat y), Cell.int (Int.ofNat mo),
           Cell.int (Int.ofNat da)] := by
  obtain ⟨i', dates, hi', hdt⟩ := timeseries_data_ok_inv h
  have hEq : some i = some i' := hi.symm.trans hi'
  simp only [Option.some.injEq] at hEq
  subst hEq
  have hclosed := timeseries_data_closed df dc i hi hwf hy hmo hd dates hdt
  rw [hclosed] at h
  simp only [Except.ok.injEq, Prod.mk.injEq] at h
  obtain ⟨hout, hn⟩ := h
  subst hout
  have hlen : dates.length = (keptRows df i).length := by
    have := mapE_ok_length hdt
    simpa using this
  refine ⟨rfl, by simp [List.length_zip, hlen], ?_⟩
  intro j hj
  have hj2 : j < dates.length := by omega
  have hF := mapE_ok_forall2 hdt
  rw [List.forall₂_iff_get] at hF
  have hent := hF.2 j (by simpa using hj) hj2
  simp only [List.get_eq_getElem, List.getElem_map] at hent
  have hmem : (keptRows df i)[j] ∈ keptRows df i := List.getElem_mem _
  obtain ⟨y, mo, da, hdd⟩ :=
    toDatetimeCell_ok_date (keptRows_getD_ne_na hmem) hent
  refine ⟨y, mo, da, ?_, ?_⟩
  · rw [List.getD_eq_getElem _ _ hj]
    rw [hent, hdd]
  · have hjz : j < (((keptRows df i).zip dates).map
        (fun p => p.1.set i p.2 ++ [yearC p.2, monthC p.2, dayC p.2])).length := by
      simp [List.length_zip]
      omega
    rw [List.getD_eq_getElem _ _ hjz, List.getElem_map, List.getElem_zip,
      List.getD_eq_getElem _ _ hj, hdd]
    rfl

/-- Counterexample to C5 as stated: on an input that already has a `year`
column, `timeseries_data` overwrites it in place rather than leaving the
non-date columns unchanged, so the returned `year` column differs from the
input's. -/
theorem claim_C5_counterexample :
    timeseries_data ⟨["d", "year"], [[Cell.str "2020-01-02", Cell.int 1999]]⟩
        "d" =
      .ok (⟨["d", "year", "month", "day"],
        [[Cell.date 2020 1 2, Cell.int 2020, Cell.int 1, Cell.int 2]]⟩, 0) ∧
    DataFrame.getCol
        ⟨["d", "year"], [[Cell.str "2020-01-02", Cell.int 1999]]⟩ "year" =
      .ok [Cell.int 1999] ∧
    DataFrame.getCol
        ⟨["d", "year", "month", "day"],
          [[Cell.date 2020 1 2, Cell.int 2020, Cell.int 1, Cell.int 2]]⟩
        "year" =
      .ok [Cell.int 2020] ∧
    Cell.int 1999 ≠ Cell.int 2020 :=
  ⟨by decide, by decide, by decide, by decide⟩

/-- Witness for C5: the amended statement instantiated on a concrete
two-column frame with one missing date. -/
theorem claim_C5_witness :
    (colIdx "d" ["d", "x"] = some 0 ∧
      DataFrame.wf ⟨["d", "x"],
        [[Cell.str "2020-01-02", Cell.int 7], [Cell.na, Cell.int 8]]⟩ ∧
      timeseries_data
          ⟨["d", "x"],
            [[Cell.str "2020-01-02", Cell.int 7], [Cell.na, Cell.int 8]]⟩
          "d" =
        .ok (⟨["d", "x", "year", "month", "day"],
          [[Cell.date 2020 1 2, Cell.int 7, Cell.int 2020, Cell.int 1,
            Cell.int 2]]⟩, 0)) ∧
    (⟨["d", "x", "year", "month", "day"],
        [[Cell.date 2020 1 2, Cell.int 7, Cell.int 2020, Cell.int 1,
          Cell.int 2]]⟩ : DataFrame).cols =
      ["d", "x"] ++ ["year", "month", "day"] ∧
    (⟨["d", "x", "year", "month", "day"],
        [[Cell.date 2020 1 2, Cell.int 7, Cell.int 2020, Cell.int 1,
          Cell.int 2]]⟩ : DataFrame).rows.length =
      (keptRows ⟨["d", "x"],
        [[Cell.str "2020-01-02", Cell.int 7], [Cell.na, Cell.int 8]]⟩
        0).length ∧
    (∀ j, j < (keptRows ⟨["d", "x"],
        [[Cell.str "2020-01-02", Cell.int 7], [Cell.na, Cell.int 8]]⟩
        0).length → ∃ y mo da,
      toDatetimeCell (((keptRows ⟨["d", "x"],
          [[Cell.str "2020-01-02", Cell.int 7], [Cell.na, Cell.int 8]]⟩
          0).getD j []).getD 0 Cell.na) = .ok (Cell.date y mo da) ∧
      (⟨["d", "x", "year", "month", "day"],
          [[Cell.date 2020 1 2, Cell.int 7, Cell.int 2020, Cell.int 1,
            Cell.int 2]]⟩ : DataFrame).rows.getD j [] =
        (((keptRows ⟨["d", "x"],
            [[Cell.str "2020-01-02", Cell.int 7], [Cell.na, Cell.int 8]]⟩
            0).getD j []).set 0 (Cell.date y mo da)) ++
          [Cell.int (Int.ofNat y), Cell.int (Int.ofNat mo),
           Cell.int (Int.ofNat da)]) :=
  ⟨⟨by decide, by decide, by decide⟩,
    claim_C5
      ⟨["d", "x"], [[Cell.str "2020-01-02", Cell.int 7], [Cell.na, Cell.int 8]]⟩
      "d" 0 (by decide) (by decide) (by decide) (by decide) (by decide)
      ⟨["d", "x", "year", "month", "day"],
        [[Cell.date 2020 1 2, Cell.int 7, Cell.int 2020, Cell.int 1,
          Cell.int 2]]⟩ 0 (by decide)⟩

theorem bindE_ok_inv {α β : Type} {x : Except Err α} {f : α → Except Err β}
    {b : β} (h : (x >>= f) = .ok b) : ∃ a, x = .ok a ∧ f a = .ok b := by
  cases x with
  | error e => simp at h
  | ok a => exact ⟨a, rfl, by simpa using h⟩

theorem getCol_keyError {df : DataFrame} {c : String} (h : c ∉ df.cols) :
    df.getCol c = .error (.keyError c) := by
  simp [DataFrame.getCol, (colIdx_none_iff c df.cols).mpr h]

/-- C7: `timeseries_data` requires every non-missing string in the date
column to parse in the fixed `%Y-%m-%d` format: a non-parseable value makes
the function fail, and a successful run certifies every string value in the
column parses. -/
theorem claim_C7 (df : DataFrame) (dc : String) (i : Nat) (col : List Cell)
    (hi : colIdx dc df.cols = some i) (hcol : df.getCol dc = .ok col) :
    ((∃ s, Cell.str s ∈ col ∧ parseDate s = none) →
      ∃ e, timeseries_data df dc = .error e) ∧
    (∀ out, timeseries_data df dc = .ok out →
      ∀ s, Cell.str s ∈ col → parseDate s ≠ none) := by
  have hcol2 : col = df.rows.map (fun r => r.getD i Cell.na) := by
    rw [DataFrame.getCol, hi] at hcol
    simpa using hcol.symm
  have hmemkept : ∀ s, Cell.str s ∈ col →
      Cell.str s ∈ (keptRows df i).map (fun r => r.getD i Cell.na) := by
    intro s hs
    rw [hcol2] at hs
    obtain ⟨r, hr, hri⟩ := List.mem_map.mp hs
    refine List.mem_map.mpr ⟨r, ?_, hri⟩
    refine List.mem_filter.mpr ⟨hr, ?_⟩
    rw [hri]
    simp
  constructor
  · rintro ⟨s, hs, hp⟩
    have hbad : ∀ b, toDatetimeCell (Cell.str s) ≠ .ok b := by
      intro b
      simp [toDatetimeCell, hp]
    obtain ⟨e, he⟩ := mapE_error_of_mem (hmemkept s hs) hbad
    exact ⟨e, timeseries_data_parse_propagates hi he⟩
  · rintro ⟨out, n⟩ hout s hs hp
    obtain ⟨i', dates, hi', hdt⟩ := timeseries_data_ok_inv hout
    have hEq : some i = some i' := hi.symm.trans hi'
    simp only [Option.some.injEq] at hEq
    subst hEq
    obtain ⟨b, hb⟩ := mapE_ok_of_mem hdt (hmemkept s hs)
    simp [toDatetimeCell, hp] at hb

/-- Witness for C7 at a concrete frame whose only date value does not match
`%Y-%m-%d`: the function fails.  The success direction is exercised through
the same theorem applied to the instantiated hypotheses. -/
theorem claim_C7_witness :
    (colIdx "d" ["d"] = some 0 ∧
      DataFrame.getCol ⟨["d"], [[Cell.str "02/01/2020"]]⟩ "d" =
        .ok [Cell.str "02/01/2020"] ∧
      Cell.str "02/01/2020" ∈ [Cell.str "02/01/2020"] ∧
      parseDate "02/01/2020" = none) ∧
    (∃ e, timeseries_data ⟨["d"], [[Cell.str "02/01/2020"]]⟩ "d" =
      .error e) :=
  ⟨⟨by decide, by decide, by decide, by decide⟩,
    (claim_C7 ⟨["d"], [[Cell.str "02/01/2020"]]⟩ "d" 0
      [Cell.str "02/01/2020"] (by decide) (by decide)).1
      ⟨"02/01/2020", by decide, by decide⟩⟩

/-- C3: no function catches, wraps or translates an exception.  Each
enumerated failure (missing column, non-parseable date, a failing
statistical routine) surfaces out of the calling function as exactly the
error the underlying library call produced: pandas' KeyError for a missing
column, `to_datetime`'s error for a bad date, the `.dt` accessor's error for
a non-datetime column, and whatever error `STL(...).fit()` or `adfuller`
raised, all unmodified. -/
theorem claim_C3 :
    (∀ df dc, dc ∉ df.cols →
      timeseries_data df dc = .error (.keyError dc)) ∧
    (∀ df dc i e, colIdx dc df.cols = some i →
      to_datetime ((keptRows df i).map (fun r => r.getD i Cell.na)) =
        .error e →
      timeseries_data df dc = .error e) ∧
    (∀ describe df dc v, dc ∉ df.cols →
      plot_timeseries_data describe df dc v = .error (.keyError dc)) ∧
    (∀ stl df dc vc p, dc ∉ df.cols →
      decompose_and_plot_timeseries stl df dc vc p = .error (.keyError dc)) ∧
    (∀ stl df dc vc p m e, resampleMonthlySum df dc vc = .ok m →
      stl m p = .error e →
      decompose_and_plot_timeseries stl df dc vc p = .error e) ∧
    (∀ adfuller df vc, vc ∉ df.cols →
      stationarity_and_acf_pacf_plots adfuller df vc =
        .error (.keyError vc)) ∧
    (∀ adfuller df vc col e, df.getCol vc = .ok col →
      adfuller col = .error e →
      stationarity_and_acf_pacf_plots adfuller df vc = .error e) ∧
    (∀ df dc v, dc ∉ df.cols →
      plot_annual_reviews_and_growth df dc v = .error (.keyError dc)) ∧
    (∀ df dc v col e, df.getCol dc = .ok col → dtYear col = .error e →
      plot_annual_reviews_and_growth df dc v = .error e) ∧
    (∀ df dc v, dc ∉ df.cols →
      plot_general_monthly_reviews df dc v = .error (.keyError dc)) ∧
    (∀ df dc v col e, df.getCol dc = .ok col → dtMonth col = .error e →
      plot_general_monthly_reviews df dc v = .error e) ∧
    (∀ df dc v, dc ∉ df.cols →
      plot_weekday_reviews df dc v = .error (.keyError dc)) ∧
    (∀ df dc v col e, df.getCol dc = .ok col →
      mapE dtDayNameCell col = .error e →
      plot_weekday_reviews df dc v = .error e) := by
  refine ⟨?_, ?_, ?_, ?_, ?_, ?_, ?_, ?_, ?_, ?_, ?_, ?_, ?_⟩
  · intro df dc h
    exact timeseries_data_keyError h
  · intro df dc i e hi hdt
    exact timeseries_data_parse_propagates hi hdt
  · intro describe df dc v h
    have hg : groupbySize df dc v = .error (.keyError dc) := by
      simp [groupbySize, getCol_keyError h]
    simp [plot_timeseries_data, hg]
  · intro stl df dc vc p h
    have hr : resampleMonthlySum df dc vc = .error (.keyError dc) := by
      simp [resampleMonthlySum, getCol_keyError h]
    simp [decompose_and_plot_timeseries, hr]
  · intro stl df dc vc p m e h1 h2
    simp [decompose_and_plot_timeseries, h1, h2]
  · intro adfuller df vc h
    simp [stationarity_and_acf_pacf_plots, getCol_keyError h]
  · intro adfuller df vc col e h1 h2
    simp [stationarity_and_acf_pacf_plots, h1, h2]
  · intro df dc v h
    simp [plot_annual_reviews_and_growth, getCol_keyError h]
  · intro df dc v col e h1 h2
    simp [plot_annual_reviews_and_growth, h1, h2]
  · intro df dc v h
    simp [plot_general_monthly_reviews, getCol_keyError h]
  · intro df dc v col e h1 h2
    simp [plot_general_monthly_reviews, h1, h2]
  · intro df dc v h
    simp [plot_weekday_reviews, getCol_keyError h]
  · intro df dc v col e h1 h2
    simp [plot_weekday_reviews, h1, h2]

/-- Witness for C3: a missing column, a non-parseable date, and a failing
STL fit, each propagated unmodified out of the calling function on concrete
inputs. -/
theorem claim_C3_witness :
    ("b" ∉ (⟨["a"], [[Cell.int 1]]⟩ : DataFrame).cols ∧
      timeseries_data ⟨["a"], [[Cell.int 1]]⟩ "b" =
        .error (.keyError "b")) ∧
    (colIdx "d" ["d"] = some 0 ∧
      to_datetime ((keptRows ⟨["d"], [[Cell.str "nope"]]⟩ 0).map
        (fun r => r.getD 0 Cell.na)) = .error (.parseError "nope") ∧
      timeseries_data ⟨["d"], [[Cell.str "nope"]]⟩ "d" =
        .error (.parseError "nope")) ∧
    ((∃ m, resampleMonthlySum ⟨["d", "v"], [[Cell.date 2020 1 2, Cell.int 3]]⟩
        "d" "v" = .ok m) ∧
      decompose_and_plot_timeseries
        (fun _ _ => .error (.libError "series too short"))
        ⟨["d", "v"], [[Cell.date 2020 1 2, Cell.int 3]]⟩ "d" "v" 13 =
        .error (.libError "series too short")) :=
  ⟨⟨by decide, claim_C3.1 ⟨["a"], [[Cell.int 1]]⟩ "b" (by decide)⟩,
    ⟨by decide, by decide,
      claim_C3.2.1 ⟨["d"], [[Cell.str "nope"]]⟩ "d" 0 (.parseError "nope")
        (by decide) (by decide)⟩,
    ⟨⟨_, rfl⟩,
      claim_C3.2.2.2.2.1 (fun _ _ => .error (.libError "series too short"))
        ⟨["d", "v"], [[Cell.date 2020 1 2, Cell.int 3]]⟩ "d" "v" 13
        _ (.libError "series too short") rfl rfl⟩⟩

theorem timeseries_data_charts {df : DataFrame} {dc : String}
    {r : DataFrame × Nat} (h : timeseries_data df dc = .ok r) : r.2 = 0 := by
  simp only [timeseries_data] at h
  obtain ⟨a1, h1, h⟩ := bindE_ok_inv h
  obtain ⟨a2, h2, h⟩ := bindE_ok_inv h
  obtain ⟨a3, h3, h⟩ := bindE_ok_inv h
  obtain ⟨a4, h4, h⟩ := bindE_ok_inv h
  obtain ⟨a5, h5, h⟩ := bindE_ok_inv h
  obtain ⟨a6, h6, h⟩ := bindE_ok_inv h
  obtain ⟨a7, h7, h⟩ := bindE_ok_inv h
  obtain ⟨a8, h8, h⟩ := bindE_ok_inv h
  obtain ⟨a9, h9, h⟩ := bindE_ok_inv h
  simp only [Except.ok.injEq] at h
  rw [← h]

theorem plot_timeseries_data_charts {describe : DataFrame → DataFrame}
    {df : DataFrame} {dc v : String}
    {r : (DataFrame × (DataFrame × DataFrame)) × Nat}
    (h : plot_timeseries_data describe df dc v = .ok r) : r.2 = 1 := by
  simp only [plot_timeseries_data] at h
  obtain ⟨a1, h1, h⟩ := bindE_ok_inv h
  obtain ⟨a2, h2, h⟩ := bindE_ok_inv h
  obtain ⟨a3, h3, h⟩ := bindE_ok_inv h
  obtain ⟨a4, h4, h⟩ := bindE_ok_inv h
  obtain ⟨a5, h5, h⟩ := bindE_ok_inv h
  simp only [Except.ok.injEq] at h
  rw [← h]

theorem decompose_and_plot_timeseries_charts
    {stl : List (Nat × ℚ) → Nat → Except Err STLOut} {df : DataFrame}
    {dc vc : String} {p : Nat} {r : STLOut × Nat}
    (h : decompose_and_plot_timeseries stl df dc vc p = .ok r) : r.2 = 1 := by
  simp only [decompose_and_plot_timeseries] at h
  obtain ⟨a1, h1, h⟩ := bindE_ok_inv h
  obtain ⟨a2, h2, h⟩ := bindE_ok_inv h
  simp only [Except.ok.injEq] at h
  rw [← h]

theorem stationarity_and_acf_pacf_plots_charts
    {adfuller : List Cell → Except Err AdfResult} {df : DataFrame}
    {vc : String} {r : (Series × Bool) × Nat}
    (h : stationarity_and_acf_pacf_plots adfuller df vc = .ok r) :
    r.2 = 1 := by
  simp only [stationarity_and_acf_pacf_plots] at h
  obtain ⟨a1, h1, h⟩ := bindE_ok_inv h
  obtain ⟨a2, h2, h⟩ := bindE_ok_inv h
  simp only [Except.ok.injEq] at h
  rw [← h]

theorem plot_annual_reviews_and_growth_charts {df : DataFrame}
    {dc v : String} {r : (DataFrame × DataFrame) × Nat}
    (h : plot_annual_reviews_and_growth df dc v = .ok r) : r.2 = 1 := by
  simp only [plot_annual_reviews_and_growth] at h
  obtain ⟨a1, h1, h⟩ := bindE_ok_inv h
  obtain ⟨a2, h2, h⟩ := bindE_ok_inv h
  obtain ⟨a3, h3, h⟩ := bindE_ok_inv h
  obtain ⟨a4, h4, h⟩ := bindE_ok_inv h
  simp only [Except.ok.injEq] at h
  rw [← h]

theorem plot_general_monthly_reviews_charts {df : DataFrame}
    {dc v : String} {r : (DataFrame × DataFrame) × Nat}
    (h : plot_general_monthly_reviews df dc v = .ok r) : r.2 = 1 := by
  simp only [plot_general_monthly_reviews] at h
  obtain ⟨a1, h1, h⟩ := bindE_ok_inv h
  obtain ⟨a2, h2, h⟩ := bindE_ok_inv h
  obtain ⟨a3, h3, h⟩ := bindE_ok_inv h
  simp only [Except.ok.injEq] at h
  rw [← h]

theorem plot_weekday_reviews_charts {df : DataFrame}
    {dc v : String} {r : (DataFrame × DataFrame) × Nat}
    (h : plot_weekday_reviews df dc v = .ok r) : r.2 = 1 := by
  simp only [plot_weekday_reviews] at h
  obtain ⟨a1, h1, h⟩ := bindE_ok_inv h
  obtain ⟨a2, h2, h⟩ := bindE_ok_inv h
  obtain ⟨a3, h3, h⟩ := bindE_ok_inv h
  simp only [Except.ok.injEq] at h
  rw [← h]

/-- Counterexample to C2 as stated: `timeseries_data` succeeds on a
one-column frame and shows zero charts (its chart counter is 0: the source
body contains no plotting call, only a `print`), contradicting "each ...
renders a chart as a side effect". -/
theorem claim_C2_counterexample :
    timeseries_data ⟨["d"], [[Cell.str "2020-01-02"]]⟩ "d" =
      .ok (⟨["d", "year", "month", "day"],
        [[Cell.date 2020 1 2, Cell.int 2020, Cell.int 1, Cell.int 2]]⟩, 0) := by
  decide

/-- C2 (amended): each of the seven functions takes a dataframe; on
success, the six plotting functions each render exactly one chart while
`timeseries_data` renders none.  (The returned values are as in the
respective embeddings: five functions return derived dataframes,
`decompose_and_plot_timeseries` returns an STL decomposition result, and
`stationarity_and_acf_pacf_plots` returns an ADF summary series with a
boolean.) -/
theorem claim_C2 :
    (∀ df dc r, timeseries_data df dc = .ok r → r.2 = 0) ∧
    (∀ describe df dc v r,
      plot_timeseries_data describe df dc v = .ok r → r.2 = 1) ∧
    (∀ stl df dc vc p r,
      decompose_and_plot_timeseries stl df dc vc p = .ok r → r.2 = 1) ∧
    (∀ adfuller df vc r,
      stationarity_and_acf_pacf_plots adfuller df vc = .ok r → r.2 = 1) ∧
    (∀ df dc v r, plot_annual_reviews_and_growth df dc v = .ok r →
      r.2 = 1) ∧
    (∀ df dc v r, plot_general_monthly_reviews df dc v = .ok r →
      r.2 = 1) ∧
    (∀ df dc v r, plot_weekday_reviews df dc v = .ok r → r.2 = 1) :=
  ⟨fun _ _ _ h => timeseries_data_charts h,
    fun _ _ _ _ _ h => plot_timeseries_data_charts h,
    fun _ _ _ _ _ _ h => decompose_and_plot_timeseries_charts h,
    fun _ _ _ _ h => stationarity_and_acf_pacf_plots_charts h,
    fun _ _ _ _ h => plot_annual_reviews_and_growth_charts h,
    fun _ _ _ _ h => plot_general_monthly_reviews_charts h,
    fun _ _ _ _ h => plot_weekday_reviews_charts h⟩

/-- Witness for C2 (amended) on concrete frames: zero charts from
`timeseries_data`, one chart from `plot_general_monthly_reviews`. -/
theorem claim_C2_witness :
    (timeseries_data ⟨["d"], [[Cell.str "2020-01-02"]]⟩ "d" =
      .ok (⟨["d", "year", "month", "day"],
        [[Cell.date 2020 1 2, Cell.int 2020, Cell.int 1, Cell.int 2]]⟩, 0) ∧
      ((⟨["d", "year", "month", "day"],
        [[Cell.date 2020 1 2, Cell.int 2020, Cell.int 1, Cell.int 2]]⟩,
        0) : DataFrame × Nat).2 = 0) ∧
    (plot_general_monthly_reviews ⟨["d"], [[Cell.date 2020 1 2]]⟩ "d" "n" =
      .ok ((⟨["d", "month"], [[Cell.date 2020 1 2, Cell.int 1]]⟩,
        ⟨["month", "n"], [[Cell.int 1, Cell.int 1]]⟩), 1) ∧
      (((⟨["d", "month"], [[Cell.date 2020 1 2, Cell.int 1]]⟩,
        ⟨["month", "n"], [[Cell.int 1, Cell.int 1]]⟩),
        1) : (DataFrame × DataFrame) × Nat).2 = 1) :=
  ⟨⟨by decide, claim_C2.1 ⟨["d"], [[Cell.str "2020-01-02"]]⟩ "d" _ (by decide)⟩,
    ⟨by decide, claim_C2.2.2.2.2.2.1 ⟨["d"], [[Cell.date 2020 1 2]]⟩ "d" "n"
      _ (by decide)⟩⟩

/-- C8: every function's returned value is determined by its arguments
alone (including, for the functions that call one, the statistical library
routine passed in): equal inputs give equal outputs; the embedding has no
state shared between the seven functions. -/
theorem claim_C8 :
    (∀ d1 d2 c1 c2, d1 = d2 → c1 = c2 →
      timeseries_data d1 c1 = timeseries_data d2 c2) ∧
    (∀ de1 de2 d1 d2 c1 c2 v1 v2, de1 = de2 → d1 = d2 → c1 = c2 → v1 = v2 →
      plot_timeseries_data de1 d1 c1 v1 = plot_timeseries_data de2 d2 c2 v2) ∧
    (∀ s1 s2 d1 d2 c1 c2 v1 v2 p1 p2,
      s1 = s2 → d1 = d2 → c1 = c2 → v1 = v2 → p1 = p2 →
      decompose_and_plot_timeseries s1 d1 c1 v1 p1 =
        decompose_and_plot_timeseries s2 d2 c2 v2 p2) ∧
    (∀ a1 a2 d1 d2 v1 v2, a1 = a2 → d1 = d2 → v1 = v2 →
      stationarity_and_acf_pacf_plots a1 d1 v1 =
        stationarity_and_acf_pacf_plots a2 d2 v2) ∧
    (∀ d1 d2 c1 c2 v1 v2, d1 = d2 → c1 = c2 → v1 = v2 →
      plot_annual_reviews_and_growth d1 c1 v1 =
        plot_annual_reviews_and_growth d2 c2 v2) ∧
    (∀ d1 d2 c1 c2 v1 v2, d1 = d2 → c1 = c2 → v1 = v2 →
      plot_general_monthly_reviews d1 c1 v1 =
        plot_general_monthly_reviews d2 c2 v2) ∧
    (∀ d1 d2 c1 c2 v1 v2, d1 = d2 → c1 = c2 → v1 = v2 →
      plot_weekday_reviews d1 c1 v1 = plot_weekday_reviews d2 c2 v2) := by
  refine ⟨?_, ?_, ?_, ?_, ?_, ?_, ?_⟩
  · intro d1 d2 c1 c2 hd hc; rw [hd, hc]
  · intro de1 de2 d1 d2 c1 c2 v1 v2 he hd hc hv; rw [he, hd, hc, hv]
  · intro s1 s2 d1 d2 c1 c2 v1 v2 p1 p2 hs hd hc hv hp
    rw [hs, hd, hc, hv, hp]
  · intro a1 a2 d1 d2 v1 v2 ha hd hv; rw [ha, hd, hv]
  · intro d1 d2 c1 c2 v1 v2 hd hc hv; rw [hd, hc, hv]
  · intro d1 d2 c1 c2 v1 v2 hd hc hv; rw [hd, hc, hv]
  · intro d1 d2 c1 c2 v1 v2 hd hc hv; rw [hd, hc, hv]

/-- Witness for C8: two syntactically separate but equal calls on a
concrete frame produce the same result. -/
theorem claim_C8_witness :
    timeseries_data ⟨["d"], [[Cell.str "2020-01-02"]]⟩ "d" =
      timeseries_data ⟨["d"], [[Cell.str "2020-01-02"]]⟩ "d" :=
  claim_C8.1 ⟨["d"], [[Cell.str "2020-01-02"]]⟩
    ⟨["d"], [[Cell.str "2020-01-02"]]⟩ "d" "d" (by decide) (by decide)

/-- C10: `stationarity_and_acf_pacf_plots` returns `True` exactly when the
ADF p-value is at most 0.05, and its summary series holds, in order and with
the source's labels, entries 0-3 of the `adfuller` result (test statistic,
p-value, lags used, observations used). -/
theorem claim_C10 (adfuller : List Cell → Except Err AdfResult)
    (df : DataFrame) (vc : String) (col : List Cell) (r : AdfResult)
    (s : Series) (b : Bool) (n : Nat)
    (hcol : df.getCol vc = .ok col) (hadf : adfuller col = .ok r)
    (h : stationarity_and_acf_pacf_plots adfuller df vc = .ok ((s, b), n)) :
    (b = true ↔ r.pvalue ≤ 5 / 100) ∧
    s = [("Test Statistic", Cell.rat r.stat),
         ("p-value", Cell.rat r.pvalue),
         ("#Lags Used", Cell.int r.usedlag),
         ("Number of Observations Used", Cell.int r.nobs)] := by
  simp only [stationarity_and_acf_pacf_plots, hcol, hadf, bindE_ok,
    Except.ok.injEq, Prod.mk.injEq] at h
  obtain ⟨⟨hs, hb⟩, _⟩ := h
  subst hs
  constructor
  · rw [← hb]
    exact decide_eq_true_iff
  · rfl

/-- Witness for C10 with a constant ADF routine reporting p-value 1/10: the
function reports non-stationary and the four labelled entries. -/
theorem claim_C10_witness :
    (DataFrame.getCol ⟨["v"], [[Cell.int 5]]⟩ "v" = .ok [Cell.int 5] ∧
      (fun _ : List Cell =>
        (.ok ⟨2, 1 / 10, 3, 40, []⟩ : Except Err AdfResult)) [Cell.int 5] =
        .ok ⟨2, 1 / 10, 3, 40, []⟩ ∧
      stationarity_and_acf_pacf_plots
        (fun _ => .ok ⟨2, 1 / 10, 3, 40, []⟩) ⟨["v"], [[Cell.int 5]]⟩ "v" =
        .ok (([("Test Statistic", Cell.rat 2),
          ("p-value", Cell.rat (1 / 10)),
          ("#Lags Used", Cell.int 3),
          ("Number of Observations Used", Cell.int 40)],
          decide ((1 : ℚ) / 10 ≤ 5 / 100)), 1)) ∧
    ((decide ((1 : ℚ) / 10 ≤ 5 / 100) = true ↔
      (⟨2, 1 / 10, 3, 40, []⟩ : AdfResult).pvalue ≤ 5 / 100) ∧
     ([("Test Statistic", Cell.rat 2),
       ("p-value", Cell.rat (1 / 10)),
       ("#Lags Used", Cell.int 3),
       ("Number of Observations Used", Cell.int 40)] : Series) =
      [("Test Statistic",
          Cell.rat (⟨2, 1 / 10, 3, 40, []⟩ : AdfResult).stat),
       ("p-value", Cell.rat (⟨2, 1 / 10, 3, 40, []⟩ : AdfResult).pvalue),
       ("#Lags Used", Cell.int (⟨2, 1 / 10, 3, 40, []⟩ : AdfResult).usedlag),
       ("Number of Observations Used",
          Cell.int (⟨2, 1 / 10, 3, 40, []⟩ : AdfResult).nobs)]) :=
  ⟨⟨by decide, rfl, rfl⟩,
    claim_C10 (fun _ => .ok ⟨2, 1 / 10, 3, 40, []⟩) ⟨["v"], [[Cell.int 5]]⟩
      "v" [Cell.int 5] ⟨2, 1 / 10, 3, 40, []⟩ _ _ 1 (by decide) rfl rfl⟩

/-- Closed form of `groupbySize` once the column read succeeds. -/
theorem groupbySize_ok {df : DataFrame} {c v : String} {col : List Cell}
    (hcol : df.getCol c = .ok col) :
    groupbySize df c v = .ok ⟨[c, v],
      (sortCells ((col.filter (fun x => x != Cell.na)).dedup)).map
        (fun k => [k, Cell.int (Int.ofNat (col.count k))])⟩ := by
  simp [groupbySize, hcol]

theorem groupKeys_nodup (col : List Cell) :
    (sortCells ((col.filter (fun x => x != Cell.na)).dedup)).Nodup :=
  sortCells_nodup (List.nodup_dedup _)

theorem groupKeys_mem {k : Cell} {col : List Cell} :
    k ∈ sortCells ((col.filter (fun x => x != Cell.na)).dedup) ↔
      (k ∈ col ∧ k ≠ Cell.na) := by
  rw [sortCells_mem, List.mem_dedup, List.mem_filter]
  simp

/-- C1: the frame returned by `plot_timeseries_data` contains one row per
distinct non-missing value of the date column (no duplicates, and a value
appears among the rows exactly when it appears in the column), and each
row's count entry is the manual count of that value's occurrences in the
input's date column. -/
theorem claim_C1 (describe : DataFrame → DataFrame) (df : DataFrame)
    (dc v : String) (col : List Cell) (out : DataFrame)
    (stats : DataFrame × DataFrame) (n : Nat)
    (hcol : df.getCol dc = .ok col)
    (h : plot_timeseries_data describe df dc v = .ok ((out, stats), n)) :
    (out.rows.map (fun r => r.getD 0 Cell.na)).Nodup ∧
    (∀ k, k ≠ Cell.na →
      (k ∈ col ↔ ∃ r ∈ out.rows, r.getD 0 Cell.na = k)) ∧
    (∀ r ∈ out.rows, r.getD 0 Cell.na ≠ Cell.na ∧
      r = [r.getD 0 Cell.na,
        Cell.int (Int.ofNat (col.count (r.getD 0 Cell.na)))]) := by
  simp only [plot_timeseries_data] at h
  obtain ⟨tsd, hg, h⟩ := bindE_ok_inv h
  obtain ⟨dates, hdates, h⟩ := bindE_ok_inv h
  obtain ⟨vals, hvals, h⟩ := bindE_ok_inv h
  obtain ⟨y1, hy1, h⟩ := bindE_ok_inv h
  obtain ⟨y2, hy2, h⟩ := bindE_ok_inv h
  simp only [Except.ok.injEq, Prod.mk.injEq] at h
  obtain ⟨⟨hout, _⟩, _⟩ := h
  rw [groupbySize_ok hcol] at hg
  simp only [Except.ok.injEq] at hg
  rw [← hg] at hout
  subst hout
  refine ⟨?_, ?_, ?_⟩
  · rw [List.map_map]
    have : ((fun r => List.getD r 0 Cell.na) ∘
        fun k => [k, Cell.int (Int.ofNat (col.count k))]) = fun k => k := by
      funext k
      rfl
    rw [this, List.map_id']
    exact groupKeys_nodup col
  · intro k hk
    constructor
    · intro hkcol
      refine ⟨[k, Cell.int (Int.ofNat (col.count k))], ?_, rfl⟩
      exact List.mem_map.mpr ⟨k, groupKeys_mem.mpr ⟨hkcol, hk⟩, rfl⟩
    · rintro ⟨r, hr, hrk⟩
      obtain ⟨k', hk', rfl⟩ := List.mem_map.mp hr
      simp only [List.getD] at hrk
      have : k' = k := hrk
      subst this
      exact (groupKeys_mem.mp hk').1
  · intro r hr
    obtain ⟨k', hk', rfl⟩ := List.mem_map.mp hr
    have hkne : k' ≠ Cell.na := (groupKeys_mem.mp hk').2
    exact ⟨hkne, rfl⟩

/-- Witness for C1 on a three-row frame with one repeated date. -/
theorem claim_C1_witness :
    (DataFrame.getCol
        ⟨["d"], [[Cell.date 2020 1 2], [Cell.date 2020 1 2],
          [Cell.date 2019 12 31]]⟩ "d" =
      .ok [Cell.date 2020 1 2, Cell.date 2020 1 2, Cell.date 2019 12 31] ∧
      plot_timeseries_data id
        ⟨["d"], [[Cell.date 2020 1 2], [Cell.date 2020 1 2],
          [Cell.date 2019 12 31]]⟩ "d" "n" =
        .ok ((⟨["d", "n"],
          [[Cell.date 2019 12 31, Cell.int 1],
           [Cell.date 2020 1 2, Cell.int 2]]⟩,
          (⟨["d", "n"],
            [[Cell.date 2019 12 31, Cell.int 1],
             [Cell.date 2020 1 2, Cell.int 2]]⟩,
           ⟨["d", "n"],
            [[Cell.date 2019 12 31, Cell.int 1],
             [Cell.date 2020 1 2, Cell.int 2]]⟩)), 1)) ∧
    (((⟨["d", "n"],
        [[Cell.date 2019 12 31, Cell.int 1],
         [Cell.date 2020 1 2, Cell.int 2]]⟩ : DataFrame).rows.map
        (fun r => r.getD 0 Cell.na)).Nodup ∧
      (∀ k, k ≠ Cell.na →
        (k ∈ [Cell.date 2020 1 2, Cell.date 2020 1 2, Cell.date 2019 12 31] ↔
          ∃ r ∈ (⟨["d", "n"],
            [[Cell.date 2019 12 31, Cell.int 1],
             [Cell.date 2020 1 2, Cell.int 2]]⟩ : DataFrame).rows,
            r.getD 0 Cell.na = k)) ∧
      (∀ r ∈ (⟨["d", "n"],
          [[Cell.date 2019 12 31, Cell.int 1],
           [Cell.date 2020 1 2, Cell.int 2]]⟩ : DataFrame).rows,
        r.getD 0 Cell.na ≠ Cell.na ∧
        r = [r.getD 0 Cell.na,
          Cell.int (Int.ofNat
            ([Cell.date 2020 1 2, Cell.date 2020 1 2,
              Cell.date 2019 12 31].count (r.getD 0 Cell.na)))])) :=
  ⟨⟨by decide, by decide⟩,
    claim_C1 id
      ⟨["d"], [[Cell.date 2020 1 2], [Cell.date 2020 1 2],
        [Cell.date 2019 12 31]]⟩ "d" "n"
      [Cell.date 2020 1 2, Cell.date 2020 1 2, Cell.date 2019 12 31]
      ⟨["d", "n"],
        [[Cell.date 2019 12 31, Cell.int 1], [Cell.date 2020 1 2, Cell.int 2]]⟩
      (⟨["d", "n"],
        [[Cell.date 2019 12 31, Cell.int 1], [Cell.date 2020 1 2, Cell.int 2]]⟩,
       ⟨["d", "n"],
        [[Cell.date 2019 12 31, Cell.int 1], [Cell.date 2020 1 2, Cell.int 2]]⟩)
      1 (by decide) (by decide)⟩

/-- The per-month values selected out of the resampling pipeline are the
plain per-month sums over the original rows: filtering the keyed pairs by a
month equals filtering the (date, value) pairs by that date's month. -/
theorem pairs_filter_sum (l : List (Cell × Cell)) (m : Nat) :
    ((l.filterMap
        (fun p => (monthKey p.1).map (fun k => (k, cellQ p.2)))).filter
      (fun p => p.1 == m)).map Prod.snd =
    (l.filter (fun q => monthKey q.1 == some m)).map
      (fun q => cellQ q.2) := by
  induction l with
  | nil => simp
  | cons p l ih =>
    cases hm : monthKey p.1 with
    | none =>
      simp only [List.filterMap_cons, hm, Option.map_none', List.filter_cons,
        hm]
      simpa using ih
    | some k =>
      by_cases hk : k = m
      · subst hk
        simp only [List.filterMap_cons, hm, Option.map_some', List.filter_cons]
        simpa using ih
      · simp only [List.filterMap_cons, hm, Option.map_some', List.filter_cons]
        have h1 : (k == m) = false := by simp [hk]
        have h2 : (some k == some m) = false := by simp [hk]
        simpa [h1, h2] using ih

/-- C4: a successful `decompose_and_plot_timeseries` returns exactly the
fitted STL decomposition of the monthly-resampled, summed value column,
unmodified, for the given seasonal period: the function does no statistical
work of its own; each monthly entry passed to STL is the plain sum of the
value column over the rows of that calendar month. -/
theorem claim_C4 (stl : List (Nat × ℚ) → Nat → Except Err STLOut)
    (df : DataFrame) (dc vc : String) (p : Nat) (r : STLOut) (n : Nat)
    (h : decompose_and_plot_timeseries stl df dc vc p = .ok (r, n)) :
    ∃ monthly, resampleMonthlySum df dc vc = .ok monthly ∧
      stl monthly p = .ok r ∧
      ∀ dcol vcol, df.getCol dc = .ok dcol → df.getCol vc = .ok vcol →
        ∀ e ∈ monthly,
          e.2 = (((dcol.zip vcol).filter
            (fun q => monthKey q.1 == some e.1)).map
            (fun q => cellQ q.2)).sum := by
  simp only [decompose_and_plot_timeseries] at h
  obtain ⟨monthly, hres, h⟩ := bindE_ok_inv h
  obtain ⟨dec, hstl, h⟩ := bindE_ok_inv h
  simp only [Except.ok.injEq, Prod.mk.injEq] at h
  obtain ⟨hdec, -⟩ := h
  subst hdec
  refine ⟨monthly, hres, hstl, ?_⟩
  intro dcol vcol hdc hvc e he
  simp only [resampleMonthlySum, hdc, bindE_ok] at hres
  split at hres
  · simp at hres
  · split at hres
    · simp at hres
    · rw [hvc] at hres
      simp only [bindE_ok] at hres
      cases hpp : ((dcol.zip vcol).filterMap
          (fun q => (monthKey q.1).map (fun k => (k, cellQ q.2)))).map
          Prod.fst with
      | nil =>
        rw [hpp] at hres
        simp only [Except.ok.injEq] at hres
        rw [← hres] at he
        simp at he
      | cons k ks =>
        rw [hpp] at hres
        simp only [Except.ok.injEq] at hres
        rw [← hres] at he
        obtain ⟨j, hj, hje⟩ := List.mem_map.mp he
        rw [← hje]
        dsimp only
        exact congrArg List.sum (pairs_filter_sum _ _)

/-- Witness for C4 with a constant STL routine on a two-row frame spanning
three months. -/
theorem claim_C4_witness :
    decompose_and_plot_timeseries
        (fun _ _ => .ok ⟨[], [], []⟩)
        ⟨["d", "v"],
          [[Cell.date 2020 1 2, Cell.int 5], [Cell.date 2020 3 2, Cell.int 7]]⟩
        "d" "v" 13 =
      .ok (⟨[], [], []⟩, 1) ∧
    ∃ monthly,
      resampleMonthlySum
          ⟨["d", "v"],
            [[Cell.date 2020 1 2, Cell.int 5],
             [Cell.date 2020 3 2, Cell.int 7]]⟩ "d" "v" = .ok monthly ∧
      (fun _ _ => (.ok ⟨[], [], []⟩ : Except Err STLOut)) monthly 13 =
        .ok (⟨[], [], []⟩ : STLOut) ∧
      ∀ dcol vcol,
        DataFrame.getCol
            ⟨["d", "v"],
              [[Cell.date 2020 1 2, Cell.int 5],
               [Cell.date 2020 3 2, Cell.int 7]]⟩ "d" = .ok dcol →
        DataFrame.getCol
            ⟨["d", "v"],
              [[Cell.date 2020 1 2, Cell.int 5],
               [Cell.date 2020 3 2, Cell.int 7]]⟩ "v" = .ok vcol →
        ∀ e ∈ monthly,
          e.2 = (((dcol.zip vcol).filter
            (fun q => monthKey q.1 == some e.1)).map
            (fun q => cellQ q.2)).sum :=
  ⟨rfl,
    claim_C4 (fun _ _ => .ok ⟨[], [], []⟩)
      ⟨["d", "v"],
        [[Cell.date 2020 1 2, Cell.int 5], [Cell.date 2020 3 2, Cell.int 7]]⟩
      "d" "v" 13 ⟨[], [], []⟩ 1 rfl⟩

theorem colIdx_some_mem {c : String} {l : List String} {i : Nat}
    (h : colIdx c l = some i) : c ∈ l := by
  by_contra hn
  rw [(colIdx_none_iff _ _).mpr hn] at h
  cases h

theorem getCol_ok_length {df : DataFrame} {c : String} {col : List Cell}
    (h : df.getCol c = .ok col) : col.length = df.rows.length := by
  rw [DataFrame.getCol] at h
  cases hc : colIdx c df.cols with
  | none => rw [hc] at h; cases h
  | some i =>
    rw [hc] at h
    simp only [Except.ok.injEq] at h
    rw [← h, List.length_map]

theorem zip_set_self (rs : List Row) (i : Nat)
    (hb : ∀ r ∈ rs, i < r.length) :
    (rs.zip (rs.map (fun r => r.getD i Cell.na))).map
      (fun p => p.1.set i p.2) = rs := by
  induction rs with
  | nil => simp
  | cons r rs ih =>
    simp only [List.map_cons, List.zip_cons_cons]
    have hr : i < r.length := hb r (List.mem_cons_self r rs)
    have hr2 : r.set i (r.getD i Cell.na) = r := set_getD_self hr
    rw [hr2, ih (fun r' h' => hb r' (List.mem_cons_of_mem _ h'))]

/-- Assigning a column leaves the frame unchanged exactly when the frame
already has that column with exactly those values. -/
theorem setCol_eq_self_iff (df : DataFrame) (c : String) (vals : List Cell)
    (hwf : df.wf) (hlen : vals.length = df.rows.length) :
    df.setCol c vals = df ↔ (c ∈ df.cols ∧ df.getCol c = .ok vals) := by
  cases hc : colIdx c df.cols with
  | none =>
    have hnm : c ∉ df.cols := (colIdx_none_iff _ _).mp hc
    simp only [DataFrame.setCol, hc]
    constructor
    · intro he
      have hcols := congrArg DataFrame.cols he
      simp only at hcols
      exfalso
      have := congrArg List.length hcols
      simp at this
    · rintro ⟨hm, -⟩
      exact absurd hm hnm
  | some i =>
    have hm : c ∈ df.cols := colIdx_some_mem hc
    have hib : ∀ r ∈ df.rows, i < r.length := by
      intro r hr
      rw [hwf r hr]
      exact colIdx_lt_length hc
    simp only [DataFrame.setCol, hc]
    constructor
    · intro he
      refine ⟨hm, ?_⟩
      have hrows := congrArg DataFrame.rows he
      simp only at hrows
      have hmap := zip_set_map_getD df.rows vals hlen.symm hib
      rw [hrows] at hmap
      simp only [DataFrame.getCol, hc]
      simpa using hmap
    · rintro ⟨-, hget⟩
      rw [DataFrame.getCol, hc] at hget
      simp only [Except.ok.injEq] at hget
      obtain ⟨cols, rows⟩ := df
      simp only at hget hib ⊢
      rw [← hget, zip_set_self rows i hib]

theorem plot_annual_ok_inv {df : DataFrame} {dc v : String}
    {df' res : DataFrame} {n : Nat}
    (h : plot_annual_reviews_and_growth df dc v = .ok ((df', res), n)) :
    ∃ dcol years, df.getCol dc = .ok dcol ∧ dtYear dcol = .ok years ∧
      df' = df.setCol "year" years := by
  simp only [plot_annual_reviews_and_growth] at h
  obtain ⟨dcol, h1, h⟩ := bindE_ok_inv h
  obtain ⟨years, h2, h⟩ := bindE_ok_inv h
  obtain ⟨annual, h3, h⟩ := bindE_ok_inv h
  obtain ⟨counts, h4, h⟩ := bindE_ok_inv h
  simp only [Except.ok.injEq, Prod.mk.injEq] at h
  exact ⟨dcol, years, h1, h2, h.1.1.symm⟩

theorem plot_monthly_ok_inv {df : DataFrame} {dc v : String}
    {df' res : DataFrame} {n : Nat}
    (h : plot_general_monthly_reviews df dc v = .ok ((df', res), n)) :
    ∃ dcol months, df.getCol dc = .ok dcol ∧ dtMonth dcol = .ok months ∧
      df' = df.setCol "month" months := by
  simp only [plot_general_monthly_reviews] at h
  obtain ⟨dcol, h1, h⟩ := bindE_ok_inv h
  obtain ⟨months, h2, h⟩ := bindE_ok_inv h
  obtain ⟨monthly, h3, h⟩ := bindE_ok_inv h
  simp only [Except.ok.injEq, Prod.mk.injEq] at h
  exact ⟨dcol, months, h1, h2, h.1.1.symm⟩

theorem plot_weekday_ok_inv {df : DataFrame} {dc v : String}
    {df' res : DataFrame} {n : Nat}
    (h : plot_weekday_reviews df dc v = .ok ((df', res), n)) :
    ∃ dcol names, df.getCol dc = .ok dcol ∧
      mapE dtDayNameCell dcol = .ok names ∧
      df' = df.setCol "weekday" names := by
  simp only [plot_weekday_reviews] at h
  obtain ⟨dcol, h1, h⟩ := bindE_ok_inv h
  obtain ⟨names, h2, h⟩ := bindE_ok_inv h
  obtain ⟨wr, h3, h⟩ := bindE_ok_inv h
  simp only [Except.ok.injEq, Prod.mk.injEq] at h
  exact ⟨dcol, names, h1, h2, h.1.1.symm⟩

/-- C6: `plot_annual_reviews_and_growth`, `plot_general_monthly_reviews`
and `plot_weekday_reviews` each mutate the caller's frame by assigning a
`year` / `month` / `weekday` column in place (the mutated input is the
first returned component); the mutated frame equals the original exactly
when the original already contained that column with identical values. -/
theorem claim_C6 :
    (∀ df dc v df' res n, DataFrame.wf df →
      plot_annual_reviews_and_growth df dc v = .ok ((df', res), n) →
      ∃ vals, df' = df.setCol "year" vals ∧
        (df' = df ↔ ("year" ∈ df.cols ∧ df.getCol "year" = .ok vals))) ∧
    (∀ df dc v df' res n, DataFrame.wf df →
      plot_general_monthly_reviews df dc v = .ok ((df', res), n) →
      ∃ vals, df' = df.setCol "month" vals ∧
        (df' = df ↔ ("month" ∈ df.cols ∧ df.getCol "month" = .ok vals))) ∧
    (∀ df dc v df' res n, DataFrame.wf df →
      plot_weekday_reviews df dc v = .ok ((df', res), n) →
      ∃ vals, df' = df.setCol "weekday" vals ∧
        (df' = df ↔
          ("weekday" ∈ df.cols ∧ df.getCol "weekday" = .ok vals))) := by
  refine ⟨?_, ?_, ?_⟩
  · intro df dc v df' res n hwf h
    obtain ⟨dcol, years, h1, h2, h3⟩ := plot_annual_ok_inv h
    have hlen : years.length = df.rows.length := by
      rw [mapE_ok_length h2, getCol_ok_length h1]
    subst h3
    exact ⟨years, rfl, setCol_eq_self_iff df "year" years hwf hlen⟩
  · intro df dc v df' res n hwf h
    obtain ⟨dcol, months, h1, h2, h3⟩ := plot_monthly_ok_inv h
    have hlen : months.length = df.rows.length := by
      rw [mapE_ok_length h2, getCol_ok_length h1]
    subst h3
    exact ⟨months, rfl, setCol_eq_self_iff df "month" months hwf hlen⟩
  · intro df dc v df' res n hwf h
    obtain ⟨dcol, names, h1, h2, h3⟩ := plot_weekday_ok_inv h
    have hlen : names.length = df.rows.length := by
      rw [mapE_ok_length h2, getCol_ok_length h1]
    subst h3
    exact ⟨names, rfl, setCol_eq_self_iff df "weekday" names hwf hlen⟩

/-- Witness for C6: a one-row frame without a `year` column is changed in
place by `plot_annual_reviews_and_growth`. -/
theorem claim_C6_witness :
    (DataFrame.wf ⟨["d"], [[Cell.date 2020 1 2]]⟩ ∧
      plot_annual_reviews_and_growth ⟨["d"], [[Cell.date 2020 1 2]]⟩ "d" "n" =
        .ok ((⟨["d", "year"], [[Cell.date 2020 1 2, Cell.int 2020]]⟩,
          ⟨["year", "n", "growth_rate"],
            [[Cell.int 2020, Cell.int 1, Cell.na]]⟩), 1)) ∧
    (∃ vals,
      (⟨["d", "year"], [[Cell.date 2020 1 2, Cell.int 2020]]⟩ : DataFrame) =
        DataFrame.setCol ⟨["d"], [[Cell.date 2020 1 2]]⟩ "year" vals ∧
      ((⟨["d", "year"], [[Cell.date 2020 1 2, Cell.int 2020]]⟩ : DataFrame) =
        ⟨["d"], [[Cell.date 2020 1 2]]⟩ ↔
        ("year" ∈ (⟨["d"], [[Cell.date 2020 1 2]]⟩ : DataFrame).cols ∧
          DataFrame.getCol ⟨["d"], [[Cell.date 2020 1 2]]⟩ "year" =
            .ok vals))) :=
  ⟨⟨by decide, by decide⟩,
    claim_C6.1 ⟨["d"], [[Cell.date 2020 1 2]]⟩ "d" "n"
      ⟨["d", "year"], [[Cell.date 2020 1 2, Cell.int 2020]]⟩
      ⟨["year", "n", "growth_rate"], [[Cell.int 2020, Cell.int 1, Cell.na]]⟩
      1 (by decide) (by decide)⟩

theorem getD_concat {L : Nat} (r : Row) (v d : Cell) (h : r.length = L) :
    (r ++ [v]).getD L d = v := by
  subst h
  induction r with
  | nil => rfl
  | cons a as ih =>
    simp only [List.cons_append, List.length_cons, List.getD_cons_succ]
    exact ih

theorem zip_concat_map_getD {L : Nat} :
    ∀ (rs : List Row) (vs : List Cell), rs.length = vs.length →
      (∀ r ∈ rs, r.length = L) →
      ((rs.zip vs).map (fun p => p.1 ++ [p.2])).map
        (fun r => r.getD L Cell.na) = vs := by
  intro rs
  induction rs with
  | nil =>
    intro vs h _
    cases vs
    · simp
    · simp at h
  | cons r rs ih =>
    intro vs h hb
    cases vs with
    | nil => simp at h
    | cons v vs' =>
      simp only [List.zip_cons_cons, List.map_cons]
      rw [getD_concat r v Cell.na (hb r (List.mem_cons_self r rs)),
        ih vs' (by simpa using h) (fun r' h' => hb r' (List.mem_cons_of_mem _ h'))]

/-- Reading back a freshly assigned new column gives the assigned values. -/
theorem setCol_new_getCol {df : DataFrame} {c : String} {vals : List Cell}
    (hc : c ∉ df.cols) (hwf : df.wf) (hlen : vals.length = df.rows.length) :
    (df.setCol c vals).getCol c = .ok vals := by
  have hnone : colIdx c df.cols = none := (colIdx_none_iff _ _).mpr hc
  simp only [DataFrame.setCol, hnone]
  have hidx : colIdx c (df.cols ++ [c]) = some df.cols.length := by
    rw [colIdx_append_of_not_mem hc]
    simp [colIdx]
  simp only [DataFrame.getCol, hidx]
  rw [zip_concat_map_getD df.rows vals hlen.symm hwf]

/-- Reading back any just-assigned column gives the assigned values,
whether the assignment replaced an existing column in place or appended a
new one. -/
theorem setCol_getCol_self {df : DataFrame} {c : String} {vals : List Cell}
    (hwf : df.wf) (hlen : vals.length = df.rows.length) :
    (df.setCol c vals).getCol c = .ok vals := by
  cases hc : colIdx c df.cols with
  | none => exact setCol_new_getCol ((colIdx_none_iff _ _).mp hc) hwf hlen
  | some i =>
    have hib : ∀ r ∈ df.rows, i < r.length := by
      intro r hr
      rw [hwf r hr]
      exact colIdx_lt_length hc
    simp only [DataFrame.setCol, hc]
    simp only [DataFrame.getCol, hc]
    rw [zip_set_map_getD df.rows vals hlen.symm hib]

theorem find?_row_map (keys : List Cell) (g : Cell → Cell) (w : Cell) :
    (keys.map (fun k => [k, g k])).find? (fun r => r.getD 0 Cell.na == w) =
    (keys.find? (fun k => k == w)).map (fun k => [k, g k]) := by
  induction keys with
  | nil => rfl
  | cons k ks ih =>
    rw [List.map_cons, List.find?_cons, List.find?_cons]
    cases hk : (k == w) with
    | true =>
      have h2 : ([k, g k].getD 0 Cell.na == w) = true := hk
      rw [h2]
      rfl
    | false =>
      have h2 : ([k, g k].getD 0 Cell.na == w) = false := hk
      rw [h2]
      exact ih

theorem find?_beq_self_of_mem {w : Cell} :
    ∀ {keys : List Cell}, w ∈ keys →
      keys.find? (fun k => k == w) = some w := by
  intro keys
  induction keys with
  | nil => intro h; simp at h
  | cons k ks ih =>
    intro h
    rw [List.find?_cons]
    cases hk : (k == w) with
    | true =>
      have : k = w := by simpa using hk
      rw [this]
    | false =>
      have hkne : k ≠ w := by simpa using hk
      have hw : w ∈ ks := by
        rcases List.mem_cons.mp h with he | h'
        · exact absurd he.symm hkne
        · exact h'
      exact ih hw

theorem find?_beq_none_of_not_mem {w : Cell} {keys : List Cell}
    (h : w ∉ keys) : keys.find? (fun k => k == w) = none := by
  rw [List.find?_eq_none]
  intro k hk
  simp only [beq_iff_eq]
  intro he
  exact h (he ▸ hk)

/-- C9: for every rectangular input frame (including one that already has
a `weekday` column, which line 249 overwrites in place), the frame returned
by `plot_weekday_reviews` has exactly seven rows, one per weekday in the
fixed Monday-to-Sunday order: a weekday with no occurrence in the computed
day names keeps its row with a missing (NaN) count entry, while an
occurring weekday's row carries its occurrence count. -/
theorem claim_C9 (df : DataFrame) (dc v : String) (dcol names : List Cell)
    (df' out : DataFrame) (n : Nat)
    (hwf : df.wf)
    (hdcol : df.getCol dc = .ok dcol)
    (hnames : mapE dtDayNameCell dcol = .ok names)
    (h : plot_weekday_reviews df dc v = .ok ((df', out), n)) :
    out.rows.length = 7 ∧
    out.rows = weekdayOrder.map (fun w =>
      [Cell.str w,
        if Cell.str w ∈ names then
          Cell.int (Int.ofNat (names.count (Cell.str w)))
        else Cell.na]) := by
  simp only [plot_weekday_reviews] at h
  obtain ⟨dcol2, h1, h⟩ := bindE_ok_inv h
  obtain ⟨names2, h2, h⟩ := bindE_ok_inv h
  obtain ⟨wr, h3, h⟩ := bindE_ok_inv h
  rw [hdcol] at h1
  simp only [Except.ok.injEq] at h1
  subst h1
  rw [hnames] at h2
  simp only [Except.ok.injEq] at h2
  subst h2
  have hlen : names.length = df.rows.length := by
    rw [mapE_ok_length hnames, getCol_ok_length hdcol]
  have hget : (df.setCol "weekday" names).getCol "weekday" = .ok names :=
    setCol_getCol_self hwf hlen
  rw [groupbySize_ok hget] at h3
  simp only [Except.ok.injEq] at h3
  subst h3
  simp only [Except.ok.injEq, Prod.mk.injEq] at h
  obtain ⟨⟨-, hout⟩, -⟩ := h
  subst hout
  simp only [setIndexReindexWeekdays]
  constructor
  · rfl
  · apply List.map_congr_left
    intro w hw
    by_cases hmem : Cell.str w ∈ names
    · rw [find?_row_map, find?_beq_self_of_mem
        (groupKeys_mem.mpr ⟨hmem, by simp⟩), if_pos hmem]
      rfl
    · rw [find?_row_map, find?_beq_none_of_not_mem
        (fun hk => hmem (groupKeys_mem.mp hk).1), if_neg hmem]
      rfl

/-- Witness for C9: two dates falling on a Thursday and a Monday produce a
seven-row frame with NaN counts for the five other weekdays. -/
theorem claim_C9_witness :
    (DataFrame.wf ⟨["d"], [[Cell.date 2020 1 2], [Cell.date 2020 3 2]]⟩ ∧
      DataFrame.getCol ⟨["d"], [[Cell.date 2020 1 2], [Cell.date 2020 3 2]]⟩
          "d" = .ok [Cell.date 2020 1 2, Cell.date 2020 3 2] ∧
      mapE dtDayNameCell [Cell.date 2020 1 2, Cell.date 2020 3 2] =
        .ok [Cell.str "Thursday", Cell.str "Monday"] ∧
      plot_weekday_reviews
          ⟨["d"], [[Cell.date 2020 1 2], [Cell.date 2020 3 2]]⟩ "d" "n" =
        .ok ((⟨["d", "weekday"],
            [[Cell.date 2020 1 2, Cell.str "Thursday"],
             [Cell.date 2020 3 2, Cell.str "Monday"]]⟩,
          ⟨["weekday", "n"],
            [[Cell.str "Monday", Cell.int 1],
             [Cell.str "Tuesday", Cell.na],
             [Cell.str "Wednesday", Cell.na],
             [Cell.str "Thursday", Cell.int 1],
             [Cell.str "Friday", Cell.na],
             [Cell.str "Saturday", Cell.na],
             [Cell.str "Sunday", Cell.na]]⟩), 1)) ∧
    ((⟨["weekday", "n"],
        [[Cell.str "Monday", Cell.int 1],
         [Cell.str "Tuesday", Cell.na],
         [Cell.str "Wednesday", Cell.na],
         [Cell.str "Thursday", Cell.int 1],
         [Cell.str "Friday", Cell.na],
         [Cell.str "Saturday", Cell.na],
         [Cell.str "Sunday", Cell.na]]⟩ : DataFrame).rows.length = 7 ∧
      (⟨["weekday", "n"],
        [[Cell.str "Monday", Cell.int 1],
         [Cell.str "Tuesday", Cell.na],
         [Cell.str "Wednesday", Cell.na],
         [Cell.str "Thursday", Cell.int 1],
         [Cell.str "Friday", Cell.na],
         [Cell.str "Saturday", Cell.na],
         [Cell.str "Sunday", Cell.na]]⟩ : DataFrame).rows =
        weekdayOrder.map (fun w =>
          [Cell.str w,
            if Cell.str w ∈ [Cell.str "Thursday", Cell.str "Monday"] then
              Cell.int (Int.ofNat
                ([Cell.str "Thursday", Cell.str "Monday"].count (Cell.str w)))
            else Cell.na])) :=
  ⟨⟨by decide, by decide, by decide, by decide⟩,
    claim_C9 ⟨["d"], [[Cell.date 2020 1 2], [Cell.date 2020 3 2]]⟩ "d" "n"
      [Cell.date 2020 1 2, Cell.date 2020 3 2]
      [Cell.str "Thursday", Cell.str "Monday"]
      ⟨["d", "weekday"],
        [[Cell.date 2020 1 2, Cell.str "Thursday"],
         [Cell.date 2020 3 2, Cell.str "Monday"]]⟩
      ⟨["weekday", "n"],
        [[Cell.str "Monday", Cell.int 1],
         [Cell.str "Tuesday", Cell.na],
         [Cell.str "Wednesday", Cell.na],
         [Cell.str "Thursday", Cell.int 1],
         [Cell.str "Friday", Cell.na],
         [Cell.str "Saturday", Cell.na],
         [Cell.str "Sunday", Cell.na]]⟩ 1
      (by decide) (by decide) (by decide) (by decide)⟩
